import Mathlib

/-!
# Connection state tracker of cbftp

A shallow embedding of `src/connstatetracker.cpp`: the tracker object is a
record, every member function is a function on that record, and a member
function that can trip a `util::assert` returns an `Option` (`none` is the
fatal assertion).  Pointers are modelled by their identity: `none` is the null
pointer and `some a` the pointer with address `a`.
-/

namespace CbFtp

/-- The value an `int` holds after a computation whose mathematical result is `x`:
the 32-bit two-complement wrap-around of the targets the program is built for.
Whatever the result of an overflowing computation, it lies in the `int` range. -/
def wrapInt (x : Int) : Int := (x + 2147483648) % 4294967296 - 2147483648

/-- Largest value of an `int`. -/
def INT_MAX : Int := 2147483647

/-- Smallest value of an `int`. -/
def INT_MIN : Int := -2147483648

/-- Modelled from the spec: the transfer-type codes `CST_DOWNLOAD`, `CST_UPLOAD`
and `CST_LIST` are macros of `connstatetracker.h`, which is not among the
sources.  The spec names the three kinds (`kind: {upload, download}` and the
`LIST` answer of `transfer_type`); only their being distinct is used. -/
inductive TransferType where
  | CST_DOWNLOAD
  | CST_UPLOAD
  | CST_LIST
  deriving DecidableEq, Repr

/-- A `TransferMonitor *`: never dereferenced by the tracker, only stored. -/
abbrev TransferMonitorPtr := Option Nat

/-- A `SiteRace *`: compared by identity only. -/
abbrev SiteRacePtr := Option Nat

/-- The `void *` payload of a delayed command. -/
abbrev VoidPtr := Option Nat

/-- A `SiteLogicRequest` value: opaque to the tracker, which stores a copy. -/
structure SiteLogicRequest where
  id : Nat
  deriving DecidableEq, Repr

/-- The `RecursiveCommandLogic` helper: opaque to the tracker, created once. -/
structure RecursiveCommandLogic where
  mk ::
  deriving DecidableEq, Repr

/-- Modelled from the spec: the `DelayedCommand` collaborator (`delayedcommand.h`
is not among the sources).  A single-slot holder of a scheduled command:
`set(command, fire_time, payload, persisting)`, `is_active()`,
`advance_to(time)` which lets it determine by itself whether it has fired,
`reset()` the unconditional cancel and `weak_reset()` which cancels unless
`persisting` was set. -/
structure DelayedCommand where
  command : String
  triggertime : Int
  arg : VoidPtr
  persisting : Bool
  active : Bool
  released : Bool
  deriving DecidableEq, Repr

namespace DelayedCommand

/-- Modelled from the spec: the holder is empty when it is constructed. -/
def new : DelayedCommand :=
  { command := "", triggertime := 0, arg := none, persisting := false,
    active := false, released := false }

/-- Modelled from the spec: `set(command, fire_time, payload, persisting)`
schedules the command, replacing whatever was in the slot. -/
def set (dc : DelayedCommand) (command : String) (triggertime : Int) (arg : VoidPtr)
    (persisting : Bool) : DelayedCommand :=
  { dc with command := command, triggertime := triggertime, arg := arg,
            persisting := persisting, active := true, released := false }

/-- Modelled from the spec: `is_active()`, whether a command is scheduled. -/
def isActive (dc : DelayedCommand) : Bool := dc.active

/-- Modelled from the spec: `advance_to(time)` informs the holder of the clock;
a scheduled command whose fire time has come is marked as fired. -/
def currentTime (dc : DelayedCommand) (time : Int) : DelayedCommand :=
  if dc.active && !dc.released && decide (dc.triggertime ≤ time) then
    { dc with released := true }
  else dc

/-- Modelled from the spec: `reset()`, the unconditional cancel. -/
def reset (dc : DelayedCommand) : DelayedCommand :=
  { dc with active := false, released := false }

/-- Modelled from the spec: `weak_reset()` cancels unless `persisting` was set,
in which case the command is left scheduled. -/
def weakReset (dc : DelayedCommand) : DelayedCommand :=
  if dc.persisting then dc else dc.reset

end DelayedCommand

/-- The members of `ConnStateTracker`.  `request` is the `Pointer<SiteLogicRequest>`
(`none` is the empty pointer). -/
structure ConnStateTracker where
  time : Int
  idletime : Int
  lastcheckedcount : Int
  lastchecked : SiteRacePtr
  delayedcommand : DelayedCommand
  transfer : Bool
  initialized : Bool
  tm : TransferMonitorPtr
  aborted : Bool
  transferlocked : Bool
  loggedin : Bool
  path : String
  file : String
  type : TransferType
  fxp : Bool
  passive : Bool
  addr : String
  ssl : Bool
  listtransfer : Bool
  listinitialized : Bool
  listtm : TransferMonitorPtr
  listpassive : Bool
  listaddr : String
  listssl : Bool
  request : Option SiteLogicRequest
  recursivelogic : RecursiveCommandLogic
  deriving DecidableEq, Repr

/-- The members the constructor leaves without an initialiser; a fresh tracker
holds indeterminate values in them. -/
structure Uninitialized where
  type : TransferType
  passive : Bool
  ssl : Bool
  listtm : TransferMonitorPtr
  listpassive : Bool
  listssl : Bool
  deriving DecidableEq, Repr

namespace util

/-- The fail-fast check `util::assert(cond)`: `none` aborts the program. -/
def assert (cond : Bool) : Option Unit := if cond then some () else none

end util

namespace ConnStateTracker

/-- The constructor `ConnStateTracker::ConnStateTracker()`. -/
def new (u : Uninitialized) : ConnStateTracker :=
  { time := 0
    idletime := 0
    lastcheckedcount := 0
    lastchecked := none
    delayedcommand := DelayedCommand.new
    transfer := false
    initialized := false
    tm := none
    aborted := false
    transferlocked := false
    loggedin := false
    path := ""
    file := ""
    type := u.type
    fxp := false
    passive := u.passive
    addr := ""
    ssl := u.ssl
    listtransfer := false
    listinitialized := false
    listtm := u.listtm
    listpassive := u.listpassive
    listaddr := ""
    listssl := u.listssl
    request := none
    recursivelogic := RecursiveCommandLogic.mk }

/-- The four-argument `delayedCommand(command, delay, arg, persisting)`. -/
def delayedCommand (s : ConnStateTracker) (command : String) (delay : Int)
    (arg : VoidPtr) (persisting : Bool) : ConnStateTracker :=
  { s with delayedcommand :=
      s.delayedcommand.set command (wrapInt (s.time + delay)) arg persisting }

/-- The three-argument `delayedCommand(command, delay, arg)`. -/
def delayedCommand3 (s : ConnStateTracker) (command : String) (delay : Int)
    (arg : VoidPtr) : ConnStateTracker :=
  s.delayedCommand command delay arg false

/-- The two-argument `delayedCommand(command, delay)`. -/
def delayedCommand2 (s : ConnStateTracker) (command : String) (delay : Int) :
    ConnStateTracker :=
  s.delayedCommand3 command delay none

/-- The tick `timePassed(time)`. -/
def timePassed (s : ConnStateTracker) (time : Int) : ConnStateTracker :=
  let s1 := { s with time := wrapInt (s.time + time) }
  let s2 := { s1 with idletime := wrapInt (s1.idletime + time) }
  if s2.delayedcommand.isActive then
    { s2 with delayedcommand := s2.delayedcommand.currentTime s2.time }
  else s2

def getTimePassed (s : ConnStateTracker) : Int := s.idletime

/-- The duplicate-check counter `check(sr)`. -/
def check (s : ConnStateTracker) (sr : SiteRacePtr) : ConnStateTracker :=
  if s.lastchecked = sr then
    { s with lastcheckedcount := wrapInt (s.lastcheckedcount + 1) }
  else
    { s with lastchecked := sr, lastcheckedcount := 1 }

def lastChecked (s : ConnStateTracker) : SiteRacePtr := s.lastchecked

def checkCount (s : ConnStateTracker) : Int := s.lastcheckedcount

def getCommand (s : ConnStateTracker) : DelayedCommand := s.delayedcommand

def setDisconnected (s : ConnStateTracker) : Option ConnStateTracker := do
  util.assert (!s.transferlocked)
  util.assert (!s.listtransfer)
  util.assert (!s.transfer)
  util.assert (!s.request.isSome)
  pure { s with loggedin := false
                delayedcommand := s.delayedcommand.weakReset
                idletime := 0 }

def use (s : ConnStateTracker) : Option ConnStateTracker := do
  util.assert (!s.transferlocked)
  pure { s with delayedcommand := s.delayedcommand.reset, idletime := 0 }

def resetIdleTime (s : ConnStateTracker) : ConnStateTracker :=
  { s with delayedcommand := s.delayedcommand.reset, idletime := 0 }

/-- The six-argument `setTransfer(path, file, fxp, passive, addr, ssl)`. -/
def setTransfer (s : ConnStateTracker) (path file : String) (fxp passive : Bool)
    (addr : String) (ssl : Bool) : Option ConnStateTracker := do
  util.assert s.transferlocked
  util.assert (!s.transfer)
  util.assert (!s.request.isSome)
  util.assert s.tm.isSome
  pure { s with transfer := true
                initialized := false
                aborted := false
                path := path
                file := file
                fxp := fxp
                passive := passive
                addr := addr
                ssl := ssl }

/-- The overload `setTransfer(path, file, fxp, ssl)`. -/
def setTransferPassive (s : ConnStateTracker) (path file : String) (fxp ssl : Bool) :
    Option ConnStateTracker :=
  s.setTransfer path file fxp true "" ssl

/-- The overload `setTransfer(path, file, addr, ssl)`. -/
def setTransferActive (s : ConnStateTracker) (path file addr : String) (ssl : Bool) :
    Option ConnStateTracker :=
  s.setTransfer path file false false addr ssl

/-- The four-argument `setList(tm, listpassive, addr, ssl)`. -/
def setList (s : ConnStateTracker) (tm : TransferMonitorPtr) (listpassive : Bool)
    (addr : String) (ssl : Bool) : Option ConnStateTracker := do
  util.assert (!s.transferlocked)
  util.assert (!s.listtransfer)
  util.assert (!s.transfer)
  let s1 ← s.use
  pure { s1 with listtransfer := true
                 listinitialized := false
                 listtm := tm
                 listpassive := listpassive
                 listaddr := addr
                 listssl := ssl }

/-- The overload `setList(tm, ssl)`. -/
def setListPassive (s : ConnStateTracker) (tm : TransferMonitorPtr) (ssl : Bool) :
    Option ConnStateTracker :=
  s.setList tm true "" ssl

/-- The overload `setList(tm, addr, ssl)`. -/
def setListActive (s : ConnStateTracker) (tm : TransferMonitorPtr) (addr : String)
    (ssl : Bool) : Option ConnStateTracker :=
  s.setList tm false addr ssl

def isLoggedIn (s : ConnStateTracker) : Bool := s.loggedin

def setLoggedIn (s : ConnStateTracker) : ConnStateTracker := { s with loggedin := true }

def isListLocked (s : ConnStateTracker) : Bool := s.listtransfer

def isTransferLocked (s : ConnStateTracker) : Bool := s.transferlocked

def hasRequest (s : ConnStateTracker) : Bool := s.request.isSome

def hasFileTransfer (s : ConnStateTracker) : Bool := s.transfer

def hasTransfer (s : ConnStateTracker) : Bool := s.isListLocked || s.hasFileTransfer

def finishTransfer (s : ConnStateTracker) : ConnStateTracker :=
  if s.listtransfer then
    { s with listtransfer := false }
  else
    { s with transfer := false, transferlocked := false, tm := none }

def abortTransfer (s : ConnStateTracker) : ConnStateTracker := { s with aborted := true }

def getTransferAborted (s : ConnStateTracker) : Bool := s.aborted

def getTransferMonitor (s : ConnStateTracker) : TransferMonitorPtr :=
  if s.listtransfer then s.listtm
  else if s.transferlocked then s.tm
  else none

def getTransferPath (s : ConnStateTracker) : String := s.path

def getTransferFile (s : ConnStateTracker) : String := s.file

def getTransferType (s : ConnStateTracker) : TransferType :=
  if s.listtransfer then TransferType.CST_LIST else s.type

def getTransferPassive (s : ConnStateTracker) : Bool :=
  if s.listtransfer then s.listpassive else s.passive

def getTransferFXP (s : ConnStateTracker) : Bool :=
  if s.listtransfer then false else s.fxp

def getTransferAddr (s : ConnStateTracker) : String :=
  if s.listtransfer then s.listaddr else s.addr

def getTransferSSL (s : ConnStateTracker) : Bool :=
  if s.listtransfer then s.listssl else s.ssl

def lockForTransfer (s : ConnStateTracker) (tm : TransferMonitorPtr) (download : Bool) :
    Option ConnStateTracker := do
  util.assert (!s.transferlocked)
  util.assert (!s.transfer)
  util.assert (!s.request.isSome)
  let s1 ← s.use
  pure { s1 with tm := tm
                 transferlocked := true
                 type := if download then TransferType.CST_DOWNLOAD
                         else TransferType.CST_UPLOAD }

def isListOrTransferLocked (s : ConnStateTracker) : Bool :=
  s.isListLocked || s.isTransferLocked

def isLocked (s : ConnStateTracker) : Bool := s.isListOrTransferLocked || s.hasRequest

def isHardLocked (s : ConnStateTracker) : Bool := s.isTransferLocked || s.hasRequest

def getRequest (s : ConnStateTracker) : Option SiteLogicRequest := s.request

def setRequest (s : ConnStateTracker) (request : SiteLogicRequest) : ConnStateTracker :=
  { s with request := some request }

def finishRequest (s : ConnStateTracker) : ConnStateTracker := { s with request := none }

def getRecursiveLogic (s : ConnStateTracker) : RecursiveCommandLogic := s.recursivelogic

def transferInitialized (s : ConnStateTracker) : Bool :=
  if s.listtransfer then s.listinitialized else s.transfer && s.initialized

def initializeTransfer (s : ConnStateTracker) : ConnStateTracker :=
  if s.listtransfer then { s with listinitialized := true }
  else { s with initialized := true }

/-- The mutating member functions, as calls with their arguments.  The shorter
overloads of `delayedCommand`, `setTransfer` and `setList` are calls of the
long forms with fixed arguments, so they are covered by the long forms. -/
inductive Op where
  | delayedCommand (command : String) (delay : Int) (arg : VoidPtr) (persisting : Bool)
  | timePassed (time : Int)
  | check (sr : SiteRacePtr)
  | setDisconnected
  | use
  | resetIdleTime
  | setTransfer (path file : String) (fxp passive : Bool) (addr : String) (ssl : Bool)
  | setList (tm : TransferMonitorPtr) (listpassive : Bool) (addr : String) (ssl : Bool)
  | setLoggedIn
  | finishTransfer
  | abortTransfer
  | lockForTransfer (tm : TransferMonitorPtr) (download : Bool)
  | setRequest (request : SiteLogicRequest)
  | finishRequest
  | initializeTransfer
  deriving DecidableEq, Repr

/-- One call on the tracker; `none` when one of its assertions fails. -/
def step (s : ConnStateTracker) : Op → Option ConnStateTracker
  | Op.delayedCommand command delay arg persisting =>
      some (s.delayedCommand command delay arg persisting)
  | Op.timePassed time => some (s.timePassed time)
  | Op.check sr => some (s.check sr)
  | Op.setDisconnected => s.setDisconnected
  | Op.use => s.use
  | Op.resetIdleTime => some s.resetIdleTime
  | Op.setTransfer path file fxp passive addr ssl =>
      s.setTransfer path file fxp passive addr ssl
  | Op.setList tm listpassive addr ssl => s.setList tm listpassive addr ssl
  | Op.setLoggedIn => some s.setLoggedIn
  | Op.finishTransfer => some s.finishTransfer
  | Op.abortTransfer => some s.abortTransfer
  | Op.lockForTransfer tm download => s.lockForTransfer tm download
  | Op.setRequest request => some (s.setRequest request)
  | Op.finishRequest => some s.finishRequest
  | Op.initializeTransfer => some s.initializeTransfer

/-- A sequence of calls, each on the state the previous one left; `none` as soon
as a call fails one of its assertions. -/
def run (s : ConnStateTracker) : List Op → Option ConnStateTracker
  | [] => some s
  | op :: ops => (step s op).bind fun s1 => run s1 ops

/-- The indeterminate members of the tracker used in the examples. -/
def exampleUninit : Uninitialized :=
  { type := TransferType.CST_UPLOAD, passive := false, ssl := false,
    listtm := none, listpassive := false, listssl := false }

/-- The call sequence `lockForTransfer(M1, download)`, then
`setTransfer("/inc", "f.txt", false, false, "1.2.3.4", true)`. -/
def opsLockBegin : List Op :=
  [Op.lockForTransfer (some 1) true,
   Op.setTransfer "/inc" "f.txt" false false "1.2.3.4" true]

/-- The tracker after `opsLockBegin` on a fresh one: locked, with a file
transfer in progress. -/
def stateLockedActive : ConnStateTracker :=
  { new exampleUninit with
    tm := some 1, transferlocked := true, type := TransferType.CST_DOWNLOAD,
    transfer := true, path := "/inc", file := "f.txt", addr := "1.2.3.4", ssl := true }

/-- One call under the caller-side rule of `setRequest`: the member function
itself asserts nothing, and the caller is to call it only while the transfer
lock is not held.  Every other call is the plain `step`. -/
def stepUnlockedRequest (s : ConnStateTracker) (op : Op) : Option ConnStateTracker :=
  match op with
  | Op.setRequest _ => if s.transferlocked then none else step s op
  | _ => step s op

/-- A sequence of calls in which every `setRequest` is made while the transfer
lock is not held and every call passes its assertions. -/
def runUnlockedRequest (s : ConnStateTracker) : List Op → Option ConnStateTracker
  | [] => some s
  | op :: ops => (stepUnlockedRequest s op).bind fun s1 => runUnlockedRequest s1 ops

/-- The call sequence `setLoggedIn()`, then `setRequest(r)`. -/
def opsLoginRequest : List Op :=
  [Op.setLoggedIn, Op.setRequest { id := 7 }]

/-- The tracker after `opsLoginRequest` on a fresh one: a request is pending. -/
def stateRequestPending : ConnStateTracker :=
  { new exampleUninit with loggedin := true, request := some { id := 7 } }

/-- The call sequence `lockForTransfer(M1, download)`, then `setRequest(r)`. -/
def opsLockThenRequest : List Op :=
  [Op.lockForTransfer (some 1) true, Op.setRequest { id := 7 }]

/-- The tracker after `opsLockThenRequest` on a fresh one: the transfer lock is
held and a request is present. -/
def stateLockedRequest : ConnStateTracker :=
  { new exampleUninit with
    tm := some 1, transferlocked := true, type := TransferType.CST_DOWNLOAD,
    request := some { id := 7 } }

/-- The call sequence `lockForTransfer(M1, download)`. -/
def opsLock : List Op := [Op.lockForTransfer (some 1) true]

/-- The tracker after `opsLock` on a fresh one: locked, no transfer yet. -/
def stateLocked : ConnStateTracker :=
  { new exampleUninit with
    tm := some 1, transferlocked := true, type := TransferType.CST_DOWNLOAD }

/-- The tracker after `setList(M2, true, "", false)` on a fresh one: a list
transfer is active. -/
def stateListActive : ConnStateTracker :=
  { new exampleUninit with
    listtransfer := true, listtm := some 2, listpassive := true, listssl := false }

/-- The call sequence `setList(M2, true, "", false)`, then
`lockForTransfer(NULL, true)`. -/
def opsListLockNull : List Op :=
  [Op.setList (some 2) true "" false, Op.lockForTransfer none true]

/-- The tracker after `opsListLockNull` on a fresh one: a list transfer is
active and the transfer lock is held with a null monitor. -/
def stateListLockedNull : ConnStateTracker :=
  { new exampleUninit with
    listtransfer := true, listtm := some 2, listpassive := true, listssl := false,
    transferlocked := true, type := TransferType.CST_DOWNLOAD }

/-- The calls that may come between `setTransfer` and `finishTransfer` in the
life of a file transfer: `initializeTransfer()`, `timePassed(d)` and
`abortTransfer()`. -/
inductive MidOp where
  | initializeTransfer
  | timePassed (time : Int)
  | abortTransfer
  deriving DecidableEq, Repr

/-- The call of the tracker a `MidOp` stands for. -/
def MidOp.toOp : MidOp → Op
  | MidOp.initializeTransfer => Op.initializeTransfer
  | MidOp.timePassed time => Op.timePassed time
  | MidOp.abortTransfer => Op.abortTransfer

/-- The life of one file transfer: lock with the non-null monitor `m`, begin
the transfer, the calls `mid` in their order, then `finishTransfer()`. -/
def opsFileTransfer (m : Nat) (download : Bool) (path file : String) (fxp passive : Bool)
    (addr : String) (ssl : Bool) (mid : List MidOp) : List Op :=
  Op.lockForTransfer (some m) download ::
    Op.setTransfer path file fxp passive addr ssl ::
      (mid.map MidOp.toOp ++ [Op.finishTransfer])

/-- Whether the tracker is in the state `Idle` of the state machine: no lock, no
file transfer, no list transfer and no request. -/
def isIdle (s : ConnStateTracker) : Bool :=
  !s.transferlocked && !s.transfer && !s.listtransfer && !s.request.isSome

/-- The call sequence `setList(M2, true, "", false)`, then
`lockForTransfer(M1, download)`, then
`setTransfer("/inc", "f.txt", true, false, "1.2.3.4", true)`. -/
def opsListLockBegin : List Op :=
  [Op.setList (some 2) true "" false, Op.lockForTransfer (some 1) true,
   Op.setTransfer "/inc" "f.txt" true false "1.2.3.4" true]

/-- The tracker after `opsListLockBegin` on a fresh one: the lock is held and
a file transfer and a list transfer are both active. -/
def stateListLockedActive : ConnStateTracker :=
  { new exampleUninit with
    listtransfer := true, listtm := some 2, listpassive := true, listssl := false,
    tm := some 1, transferlocked := true, type := TransferType.CST_DOWNLOAD,
    transfer := true, path := "/inc", file := "f.txt", fxp := true, passive := false,
    addr := "1.2.3.4", ssl := true }

/-- The same target checked `k` times in a row: `k` calls of `check(sr)`. -/
def checkTimes (s : ConnStateTracker) (sr : SiteRacePtr) : Nat → ConnStateTracker
  | 0 => s
  | k + 1 => (checkTimes s sr k).check sr

/-- The arguments of one `setList(tm, listpassive, addr, ssl)` call. -/
structure ListArgs where
  tm : TransferMonitorPtr
  listpassive : Bool
  addr : String
  ssl : Bool
  deriving DecidableEq, Repr

/-- The arguments of the most recent `setList` call once `op` has been called,
when `last` were those of the most recent one before it. -/
def noteSetList (last : Option ListArgs) : Op → Option ListArgs
  | Op.setList tm listpassive addr ssl =>
      some { tm := tm, listpassive := listpassive, addr := addr, ssl := ssl }
  | _ => last

/-- The arguments of the most recent `setList` call at the end of a call
sequence (`last` when the sequence has none). -/
def lastSetList (last : Option ListArgs) : List Op → Option ListArgs
  | [] => last
  | op :: ops => lastSetList (noteSetList last op) ops

/-- The call sequence `lockForTransfer(NULL, true)`. -/
def opsLockNull : List Op := [Op.lockForTransfer none true]

/-- The tracker after `opsLockNull` on a fresh one: locked with a null monitor. -/
def stateLockedNull : ConnStateTracker :=
  { new exampleUninit with transferlocked := true, type := TransferType.CST_DOWNLOAD }

/-- The sum `d1 + ... + dn` of the deltas of the `timePassed` calls of a call
sequence, as a mathematical integer. -/
def sumDeltas : List Op → Int
  | [] => 0
  | Op.timePassed time :: ops => time + sumDeltas ops
  | _ :: ops => sumDeltas ops

/-- The call sequence `timePassed(5)`, `setLoggedIn()`, `timePassed(7)`. -/
def opsTicks : List Op := [Op.timePassed 5, Op.setLoggedIn, Op.timePassed 7]

/-- The tracker after `opsTicks` on a fresh one: the clock is at 12. -/
def stateClock12 : ConnStateTracker :=
  { new exampleUninit with time := 12, idletime := 12, loggedin := true }

/-- The call sequence of a listing followed by a file transfer, both finished:
`setList(M2, true, "", false)`, `finishTransfer()`, `lockForTransfer(M1, true)`,
`setTransfer("/inc", "f.txt", false, false, "1.2.3.4", true)`, `finishTransfer()`. -/
def opsListThenFile : List Op :=
  [Op.setList (some 2) true "" false, Op.finishTransfer, Op.lockForTransfer (some 1) true,
   Op.setTransfer "/inc" "f.txt" false false "1.2.3.4" true, Op.finishTransfer]

/-- The tracker after `opsListThenFile` on a fresh one: nothing is held, the
file monitor is null again, and the list monitor member still holds `M2`. -/
def stateBothFinished : ConnStateTracker :=
  { new exampleUninit with
    listtm := some 2, listpassive := true, listssl := false,
    type := TransferType.CST_DOWNLOAD, path := "/inc", file := "f.txt",
    addr := "1.2.3.4", ssl := true }

/-- The call sequence `setList(M2, true, "", false)`, `initializeTransfer()`,
`lockForTransfer(M1, true)`,
`setTransfer("/inc", "f.txt", false, false, "1.2.3.4", true)`. -/
def opsListInitLockBegin : List Op :=
  [Op.setList (some 2) true "" false, Op.initializeTransfer,
   Op.lockForTransfer (some 1) true,
   Op.setTransfer "/inc" "f.txt" false false "1.2.3.4" true]

/-- The tracker after `opsListInitLockBegin` on a fresh one: an initialized
list transfer is active and a file transfer has just been begun. -/
def stateListInitLockedActive : ConnStateTracker :=
  { new exampleUninit with
    listtransfer := true, listinitialized := true, listtm := some 2, listpassive := true,
    listssl := false, tm := some 1, transferlocked := true,
    type := TransferType.CST_DOWNLOAD, transfer := true, path := "/inc", file := "f.txt",
    addr := "1.2.3.4", ssl := true }

/-- Whether a call sets the idle time to 0 when it succeeds: `setDisconnected`,
`use`, `resetIdleTime`, `setList` and `lockForTransfer`. -/
def resetsIdle : Op → Bool
  | Op.setDisconnected => true
  | Op.use => true
  | Op.resetIdleTime => true
  | Op.setList _ _ _ _ => true
  | Op.lockForTransfer _ _ => true
  | _ => false

/-- The idle time after one call, as a mathematical integer: `timePassed(d)`
adds `d`, a call that resets the idle time gives 0, any other call keeps it. -/
def idleAfter (acc : Int) (op : Op) : Int :=
  match op with
  | Op.timePassed time => acc + time
  | _ => if resetsIdle op then 0 else acc

/-- The sum of the `timePassed` deltas of a call sequence since the most recent
call that resets the idle time, starting from the sum `acc`. -/
def idleDeltas (acc : Int) : List Op → Int
  | [] => acc
  | op :: ops => idleDeltas (idleAfter acc op) ops

/-- Every `timePassed` delta of the call sequence is non-negative. -/
def deltasNonneg : List Op → Bool
  | [] => true
  | Op.timePassed time :: ops => decide (0 ≤ time) && deltasNonneg ops
  | _ :: ops => deltasNonneg ops

/-- The call sequence `timePassed(5)`, `use()`, `timePassed(3)`, `timePassed(4)`. -/
def opsTickUseTick : List Op :=
  [Op.timePassed 5, Op.use, Op.timePassed 3, Op.timePassed 4]

/-- The tracker after `opsTickUseTick` on a fresh one: the clock is at 12 and
the connection has been idle for 7. -/
def stateIdle7 : ConnStateTracker :=
  { new exampleUninit with time := 12, idletime := 7 }

end ConnStateTracker

/-! ## Theorems -/

namespace ConnStateTracker

/-! ### The asserting member functions, as guard and effect -/

theorem use_eq (s : ConnStateTracker) :
    s.use = if s.transferlocked then none else some s.resetIdleTime := by
  cases hl : s.transferlocked <;> simp [use, resetIdleTime, util.assert, hl]

theorem setDisconnected_eq (s : ConnStateTracker) :
    s.setDisconnected =
      if s.transferlocked || s.listtransfer || s.transfer || s.request.isSome then none
      else some { s with loggedin := false
                         delayedcommand := s.delayedcommand.weakReset
                         idletime := 0 } := by
  cases hl : s.transferlocked <;> cases hli : s.listtransfer <;> cases ht : s.transfer <;>
    cases hr : s.request <;> simp [setDisconnected, util.assert, hl, hli, ht, hr]

theorem setTransfer_eq (s : ConnStateTracker) (path file : String) (fxp passive : Bool)
    (addr : String) (ssl : Bool) :
    s.setTransfer path file fxp passive addr ssl =
      if !s.transferlocked || s.transfer || s.request.isSome || !s.tm.isSome then none
      else some { s with transfer := true, initialized := false, aborted := false,
                         path := path, file := file, fxp := fxp, passive := passive,
                         addr := addr, ssl := ssl } := by
  cases hl : s.transferlocked <;> cases ht : s.transfer <;> cases hr : s.request <;>
    cases hm : s.tm <;> simp [setTransfer, util.assert, hl, ht, hr, hm]

theorem setList_eq (s : ConnStateTracker) (tm : TransferMonitorPtr) (listpassive : Bool)
    (addr : String) (ssl : Bool) :
    s.setList tm listpassive addr ssl =
      if s.transferlocked || s.listtransfer || s.transfer then none
      else some { s with delayedcommand := s.delayedcommand.reset, idletime := 0,
                         listtransfer := true, listinitialized := false, listtm := tm,
                         listpassive := listpassive, listaddr := addr, listssl := ssl } := by
  cases hl : s.transferlocked <;> cases hli : s.listtransfer <;> cases ht : s.transfer <;>
    simp [setList, use, util.assert, hl, hli, ht]

theorem lockForTransfer_eq (s : ConnStateTracker) (tm : TransferMonitorPtr)
    (download : Bool) :
    s.lockForTransfer tm download =
      if s.transferlocked || s.transfer || s.request.isSome then none
      else some { s with delayedcommand := s.delayedcommand.reset, idletime := 0,
                         tm := tm, transferlocked := true,
                         type := if download then TransferType.CST_DOWNLOAD
                                 else TransferType.CST_UPLOAD } := by
  cases hl : s.transferlocked <;> cases ht : s.transfer <;> cases hr : s.request <;>
    simp [lockForTransfer, use, util.assert, hl, ht, hr]

theorem step_keeps_active_locked (s s1 : ConnStateTracker) (op : Op)
    (h : step s op = some s1) (hinv : s.transfer = true → s.transferlocked = true) :
    s1.transfer = true → s1.transferlocked = true := by
  cases op <;>
    simp only [step, use_eq, setDisconnected_eq, setTransfer_eq, setList_eq,
      lockForTransfer_eq, Option.some.injEq] at h
  all_goals (try split at h)
  all_goals (try simp at h)
  all_goals subst h
  all_goals
    simp only [delayedCommand, timePassed, check, resetIdleTime, setLoggedIn,
      finishTransfer, abortTransfer, setRequest, finishRequest, initializeTransfer]
  all_goals (try split)
  all_goals simp_all

theorem run_keeps_active_locked (ops : List Op) :
    ∀ s s1 : ConnStateTracker, run s ops = some s1 →
      (s.transfer = true → s.transferlocked = true) →
      s1.transfer = true → s1.transferlocked = true := by
  induction ops with
  | nil =>
    intro s s1 h hinv
    simp only [run, Option.some.injEq] at h
    subst h
    exact hinv
  | cons op ops ih =>
    intro s s1 h hinv
    simp only [run] at h
    cases hstep : step s op with
    | none => simp [hstep] at h
    | some s2 =>
      rw [hstep] at h
      exact ih s2 s1 h (step_keeps_active_locked s s2 op hstep hinv)

/-- C1 (invariant I1): in every state reached from a freshly constructed tracker
by a sequence of member-function calls that all pass their assertions, a file
transfer in progress (`transfer`) implies that the transfer lock is held
(`transferlocked`). -/
theorem active_implies_locked (u : Uninitialized) (ops : List Op) (s : ConnStateTracker)
    (hrun : run (new u) ops = some s) (hactive : s.transfer = true) :
    s.transferlocked = true :=
  run_keeps_active_locked ops (new u) s hrun (by simp [new]) hactive

/-- Witness of C1: after `lockForTransfer` and `setTransfer` on a fresh tracker a
file transfer is in progress and the lock is held. -/
theorem active_implies_locked_witness :
    run (new exampleUninit) opsLockBegin = some stateLockedActive ∧
      stateLockedActive.transfer = true ∧ stateLockedActive.transferlocked = true :=
  ⟨by decide, rfl,
    active_implies_locked exampleUninit opsLockBegin stateLockedActive (by decide) rfl⟩

/-- The two facts kept by calls under the caller-side rule of `setRequest`. -/
theorem stepUnlockedRequest_keeps (s s1 : ConnStateTracker) (op : Op)
    (h : stepUnlockedRequest s op = some s1)
    (hinv : (s.transfer = true → s.transferlocked = true) ∧
      (s.request.isSome = true → s.transferlocked = false)) :
    (s1.transfer = true → s1.transferlocked = true) ∧
      (s1.request.isSome = true → s1.transferlocked = false) := by
  obtain ⟨h1, h2⟩ := hinv
  cases op <;>
    simp only [stepUnlockedRequest, step, use_eq, setDisconnected_eq, setTransfer_eq,
      setList_eq, lockForTransfer_eq, Option.some.injEq] at h
  all_goals (try split at h)
  all_goals (try simp at h)
  all_goals subst h
  all_goals
    simp only [delayedCommand, timePassed, check, resetIdleTime, setLoggedIn,
      finishTransfer, abortTransfer, setRequest, finishRequest, initializeTransfer]
  all_goals (try split)
  all_goals simp_all

theorem runUnlockedRequest_keeps (ops : List Op) :
    ∀ s s1 : ConnStateTracker, runUnlockedRequest s ops = some s1 →
      ((s.transfer = true → s.transferlocked = true) ∧
        (s.request.isSome = true → s.transferlocked = false)) →
      (s1.transfer = true → s1.transferlocked = true) ∧
        (s1.request.isSome = true → s1.transferlocked = false) := by
  induction ops with
  | nil =>
    intro s s1 h hinv
    simp only [runUnlockedRequest, Option.some.injEq] at h
    subst h
    exact hinv
  | cons op ops ih =>
    intro s s1 h hinv
    simp only [runUnlockedRequest] at h
    cases hstep : stepUnlockedRequest s op with
    | none => simp [hstep] at h
    | some s2 =>
      rw [hstep] at h
      exact ih s2 s1 h (stepUnlockedRequest_keeps s s2 op hstep hinv)

/-- A call allowed under the caller-side rule is the same call of the code. -/
theorem step_of_stepUnlockedRequest (s s1 : ConnStateTracker) (op : Op)
    (h : stepUnlockedRequest s op = some s1) : step s op = some s1 := by
  cases op <;> simp only [stepUnlockedRequest] at h <;> first | exact h | skip
  split at h
  · simp at h
  · exact h

/-- A sequence allowed under the caller-side rule is a sequence of the code
with the same result. -/
theorem run_of_runUnlockedRequest (ops : List Op) :
    ∀ s s1 : ConnStateTracker, runUnlockedRequest s ops = some s1 → run s ops = some s1 := by
  induction ops with
  | nil => intro s s1 h; simpa [runUnlockedRequest, run] using h
  | cons op ops ih =>
    intro s s1 h
    simp only [runUnlockedRequest] at h
    cases hstep : stepUnlockedRequest s op with
    | none => simp [hstep] at h
    | some s2 =>
      rw [hstep] at h
      simp only [run, step_of_stepUnlockedRequest s s2 op hstep]
      exact ih s2 s1 h

/-- C2 as stated fails: `setRequest` asserts nothing, so after a successful
`lockForTransfer(M1, download)` the call `setRequest(r)` passes and leaves a state
with a request present and the transfer lock held. -/
theorem request_implies_unlocked_fails :
    ¬ ∀ (u : Uninitialized) (ops : List Op) (s : ConnStateTracker),
        run (new u) ops = some s → s.request.isSome = true →
          s.transferlocked = false ∧ s.transfer = false := by
  intro h
  have hs := h exampleUninit opsLockThenRequest stateLockedRequest (by decide) (by decide)
  exact absurd hs.1 (by decide)

/-- C2 (invariant I2, amended): in every state reached from a freshly constructed
tracker by a sequence of calls that all pass their assertions and in which
`setRequest` is only called while the transfer lock is not held, a present
request implies that the lock is not held and no file transfer is in progress;
such a sequence is a call sequence of the code with the same result. -/
theorem request_implies_unlocked (u : Uninitialized) (ops : List Op)
    (s : ConnStateTracker) (hrun : runUnlockedRequest (new u) ops = some s)
    (hreq : s.request.isSome = true) :
    run (new u) ops = some s ∧ s.transferlocked = false ∧ s.transfer = false := by
  have hinv := runUnlockedRequest_keeps ops (new u) s hrun (by simp [new])
  have hl := hinv.2 hreq
  refine ⟨run_of_runUnlockedRequest ops (new u) s hrun, hl, ?_⟩
  cases ht : s.transfer with
  | false => rfl
  | true => rw [hinv.1 ht] at hl; exact absurd hl (by decide)

/-- Witness of C2 (amended): `setLoggedIn()` then `setRequest(r)` on a fresh
tracker leave a request pending with no lock and no file transfer. -/
theorem request_implies_unlocked_witness :
    runUnlockedRequest (new exampleUninit) opsLoginRequest = some stateRequestPending ∧
      stateRequestPending.request.isSome = true ∧
      run (new exampleUninit) opsLoginRequest = some stateRequestPending ∧
      stateRequestPending.transferlocked = false ∧ stateRequestPending.transfer = false :=
  ⟨by decide, by decide,
    request_implies_unlocked exampleUninit opsLoginRequest stateRequestPending
      (by decide) (by decide)⟩

/-- C3 as stated fails: after `lockForTransfer(M1, download)` on a fresh tracker
the lock is held, no file transfer and no list transfer is active, and
`setList(M2, true, "", false)` trips its first assertion. -/
theorem setList_while_locked_fails :
    run (new exampleUninit) opsLock = some stateLocked ∧
      stateLocked.transferlocked = true ∧ stateLocked.transfer = false ∧
      stateLocked.listtransfer = false ∧
      stateLocked.setList (some 2) true "" false = none := by
  decide

/-- C3 (amended): `setList` fails fast in every state in which the transfer lock
is held.  From a state with no lock, no file transfer, no list transfer and no
request, `setList` succeeds and sets `listtransfer`, a following
`lockForTransfer` succeeds, and in the state so reached (locked, list transfer
active, no file transfer) `finishTransfer` clears only `listtransfer`, leaving
`transferlocked = true` and `transfer = false`. -/
theorem setList_then_lock_then_finish (s : ConnStateTracker) (tm : TransferMonitorPtr)
    (listpassive : Bool) (addr : String) (ssl : Bool) (tm2 : TransferMonitorPtr)
    (download : Bool) (hl : s.transferlocked = false) (ht : s.transfer = false)
    (hli : s.listtransfer = false) (hr : s.request = none) :
    (∀ t : ConnStateTracker, t.transferlocked = true →
        t.setList tm listpassive addr ssl = none) ∧
      ∃ s1 s2 : ConnStateTracker,
        s.setList tm listpassive addr ssl = some s1 ∧ s1.listtransfer = true ∧
        s1.lockForTransfer tm2 download = some s2 ∧
        s2.transferlocked = true ∧ s2.transfer = false ∧ s2.listtransfer = true ∧
        s2.finishTransfer = { s2 with listtransfer := false } ∧
        s2.finishTransfer.transferlocked = true ∧ s2.finishTransfer.transfer = false ∧
        s2.finishTransfer.listtransfer = false := by
  constructor
  · intro t htl
    simp [setList_eq, htl]
  · simp [setList_eq, lockForTransfer_eq, finishTransfer, hl, ht, hli, hr]

/-- Witness of C3 (amended) on a fresh tracker. -/
theorem setList_then_lock_then_finish_witness :
    (new exampleUninit).transferlocked = false ∧
      ((∀ t : ConnStateTracker, t.transferlocked = true →
          t.setList (some 2) true "" false = none) ∧
        ∃ s1 s2 : ConnStateTracker,
          (new exampleUninit).setList (some 2) true "" false = some s1 ∧
          s1.listtransfer = true ∧
          s1.lockForTransfer (some 1) true = some s2 ∧
          s2.transferlocked = true ∧ s2.transfer = false ∧ s2.listtransfer = true ∧
          s2.finishTransfer = { s2 with listtransfer := false } ∧
          s2.finishTransfer.transferlocked = true ∧ s2.finishTransfer.transfer = false ∧
          s2.finishTransfer.listtransfer = false) :=
  ⟨rfl, setList_then_lock_then_finish (new exampleUninit) (some 2) true "" false (some 1)
    true rfl rfl rfl rfl⟩

/-- C4: `lockForTransfer` fails fast exactly when, before the call, the transfer
lock is held or a file transfer is in progress or a request is present; whatever
the values of `listtransfer` and `listinitialized`, they do not change whether
it fails. -/
theorem lockForTransfer_fails_iff (s : ConnStateTracker) (tm : TransferMonitorPtr)
    (download : Bool) :
    (s.lockForTransfer tm download = none ↔
        (s.transferlocked = true ∨ s.transfer = true ∨ s.request.isSome = true)) ∧
      ∀ la li : Bool,
        (({ s with listtransfer := la, listinitialized := li }.lockForTransfer tm download
            = none) ↔ s.lockForTransfer tm download = none) := by
  constructor
  · rw [lockForTransfer_eq]
    cases hl : s.transferlocked <;> cases ht : s.transfer <;> cases hr : s.request <;> simp
  · intro la li
    simp only [lockForTransfer_eq]
    cases hl : s.transferlocked <;> cases ht : s.transfer <;> cases hr : s.request <;> simp

/-- C5 as stated fails for a null monitor: on a fresh tracker
`setList(M2, true, "", false)` then `lockForTransfer(NULL, true)` succeed and
leave the list transfer active next to the new lock, but the following
`setTransfer("/inc", "f.txt", false, false, "1.2.3.4", true)` trips
`util::assert(tm)`, so the state with lock, file transfer and list transfer all
set is not reached. -/
theorem lock_then_setTransfer_null_monitor_fails :
    run (new exampleUninit) opsListLockNull = some stateListLockedNull ∧
      stateListLockedNull.listtransfer = true ∧
      stateListLockedNull.transferlocked = true ∧
      stateListLockedNull.setTransfer "/inc" "f.txt" false false "1.2.3.4" true = none := by
  decide

/-- C5 (amended): in every state without lock, file transfer and request,
`lockForTransfer(tm, download)` succeeds; the new state holds the lock, the
monitor `tm`, the kind download or upload by the flag, idle time 0 and a
cancelled delayed command, and every other member is as before (the file and
list transfer flags, the list descriptor and monitor, the request, the login
state, the clock and the duplicate-check members).  A list transfer that was
active stays active next to the new lock; a following `setTransfer` succeeds and
reaches lock and file transfer set, with the list transfer as before, when `tm`
is not null, and fails fast when `tm` is null. -/
theorem lockForTransfer_effect (s : ConnStateTracker) (tm : TransferMonitorPtr)
    (download : Bool) (hl : s.transferlocked = false) (ht : s.transfer = false)
    (hr : s.request = none) :
    ∃ s1 : ConnStateTracker,
      s.lockForTransfer tm download = some s1 ∧
      s1 = { s with delayedcommand := s.delayedcommand.reset, idletime := 0, tm := tm,
                    transferlocked := true,
                    type := if download then TransferType.CST_DOWNLOAD
                            else TransferType.CST_UPLOAD } ∧
      s1.transferlocked = true ∧ s1.tm = tm ∧
      s1.type = (if download then TransferType.CST_DOWNLOAD else TransferType.CST_UPLOAD) ∧
      s1.idletime = 0 ∧ s1.delayedcommand.isActive = false ∧
      s1.transfer = s.transfer ∧ s1.listtransfer = s.listtransfer ∧
      s1.listinitialized = s.listinitialized ∧ s1.listtm = s.listtm ∧
      s1.listpassive = s.listpassive ∧ s1.listaddr = s.listaddr ∧
      s1.listssl = s.listssl ∧ s1.request = s.request ∧ s1.loggedin = s.loggedin ∧
      s1.time = s.time ∧ s1.lastchecked = s.lastchecked ∧
      s1.lastcheckedcount = s.lastcheckedcount ∧
      (s.listtransfer = true → s1.listtransfer = true ∧ s1.transferlocked = true) ∧
      (tm.isSome = true →
        ∀ (path file : String) (fxp passive : Bool) (addr : String) (ssl : Bool),
          ∃ s2 : ConnStateTracker,
            s1.setTransfer path file fxp passive addr ssl = some s2 ∧
            s2.transferlocked = true ∧ s2.transfer = true ∧
            s2.listtransfer = s.listtransfer) ∧
      (tm = none →
        ∀ (path file : String) (fxp passive : Bool) (addr : String) (ssl : Bool),
          s1.setTransfer path file fxp passive addr ssl = none) := by
  refine ⟨_, by simp [lockForTransfer_eq, hl, ht, hr], rfl, ?_⟩
  and_intros
  all_goals first | rfl | skip
  · intro hli
    exact ⟨hli, rfl⟩
  · intro hm path file fxp passive addr ssl
    rw [setTransfer_eq]
    simp only [ht, hr, hm]
    exact ⟨_, rfl, rfl, rfl, rfl⟩
  · intro hm path file fxp passive addr ssl
    simp [setTransfer_eq, hm]

/-- Witness of C5 (amended): a tracker with a list transfer active is locked
with the monitor `M1`, and a file transfer is begun. -/
theorem lockForTransfer_effect_witness :
    stateListActive.transferlocked = false ∧ stateListActive.transfer = false ∧
      stateListActive.request = none ∧
      ∃ s1 : ConnStateTracker,
        stateListActive.lockForTransfer (some 1) true = some s1 ∧
        s1.transferlocked = true ∧ s1.listtransfer = true ∧
        ∃ s2 : ConnStateTracker,
          s1.setTransfer "/inc" "f.txt" false false "1.2.3.4" true = some s2 ∧
          s2.transferlocked = true ∧ s2.transfer = true ∧ s2.listtransfer = true := by
  obtain ⟨s1, h1, -, h3, -, -, -, -, -, h9, -, -, -, -, -, -, -, -, -, -, -, h21, -⟩ :=
    lockForTransfer_effect stateListActive (some 1) true rfl rfl rfl
  obtain ⟨s2, g1, g2, g3, g4⟩ := h21 rfl "/inc" "f.txt" false false "1.2.3.4" true
  exact ⟨rfl, rfl, rfl, s1, h1, h3, h9.trans rfl, s2, g1, g2, g3, g4.trans rfl⟩

theorem run_append (ops1 ops2 : List Op) :
    ∀ s : ConnStateTracker, run s (ops1 ++ ops2) = (run s ops1).bind fun s1 => run s1 ops2 := by
  induction ops1 with
  | nil => intro s; simp [run]
  | cons op ops1 ih =>
    intro s
    simp only [List.cons_append, run]
    cases step s op with
    | none => simp
    | some s1 => simpa using ih s1

/-- The calls between `setTransfer` and `finishTransfer` never fail, keep the
lock, transfer and request members, and set `aborted` exactly when
`abortTransfer` is among them. -/
theorem run_mid (mid : List MidOp) :
    ∀ s : ConnStateTracker, ∃ s1 : ConnStateTracker,
      run s (mid.map MidOp.toOp) = some s1 ∧
      s1.transferlocked = s.transferlocked ∧ s1.transfer = s.transfer ∧
      s1.listtransfer = s.listtransfer ∧ s1.request = s.request ∧ s1.tm = s.tm ∧
      (s1.aborted = true ↔ (s.aborted = true ∨ MidOp.abortTransfer ∈ mid)) := by
  induction mid with
  | nil => intro s; exact ⟨s, rfl, rfl, rfl, rfl, rfl, rfl, by simp⟩
  | cons op mid ih =>
    intro s
    cases op with
    | initializeTransfer =>
      obtain ⟨s1, h1, h2, h3, h4, h5, h6, h7⟩ := ih s.initializeTransfer
      refine ⟨s1, by simpa [run, step, MidOp.toOp] using h1, ?_⟩
      simp only [initializeTransfer] at h2 h3 h4 h5 h6 h7
      split at h2 <;> simp_all
    | timePassed d =>
      obtain ⟨s1, h1, h2, h3, h4, h5, h6, h7⟩ := ih (s.timePassed d)
      refine ⟨s1, by simpa [run, step, MidOp.toOp] using h1, ?_⟩
      simp only [timePassed] at h2 h3 h4 h5 h6 h7
      split at h2 <;> simp_all
    | abortTransfer =>
      obtain ⟨s1, h1, h2, h3, h4, h5, h6, h7⟩ := ih s.abortTransfer
      refine ⟨s1, by simpa [run, step, MidOp.toOp] using h1, ?_⟩
      simp only [abortTransfer] at h2 h3 h4 h5 h6 h7
      simp_all

theorem lockForTransfer_flags (s : ConnStateTracker) (tm : TransferMonitorPtr)
    (download : Bool) (hl : s.transferlocked = false) (ht : s.transfer = false)
    (hr : s.request = none) :
    ∃ s1 : ConnStateTracker,
      s.lockForTransfer tm download = some s1 ∧ s1.transferlocked = true ∧
      s1.transfer = false ∧ s1.request = none ∧ s1.tm = tm ∧
      s1.listtransfer = s.listtransfer ∧ s1.aborted = s.aborted := by
  rw [lockForTransfer_eq]
  simp only [hl, ht, hr]
  exact ⟨_, rfl, rfl, rfl, rfl, rfl, rfl, rfl⟩

theorem setTransfer_flags (s : ConnStateTracker) (path file : String) (fxp passive : Bool)
    (addr : String) (ssl : Bool) (hl : s.transferlocked = true) (ht : s.transfer = false)
    (hr : s.request = none) (hm : s.tm.isSome = true) :
    ∃ s1 : ConnStateTracker,
      s.setTransfer path file fxp passive addr ssl = some s1 ∧ s1.transferlocked = true ∧
      s1.transfer = true ∧ s1.request = none ∧ s1.tm = s.tm ∧
      s1.listtransfer = s.listtransfer ∧ s1.aborted = false := by
  rw [setTransfer_eq]
  simp only [hl, ht, hr, hm]
  exact ⟨_, rfl, rfl, rfl, rfl, rfl, rfl, rfl⟩

/-- C6: on a freshly constructed tracker, for every non-null monitor, direction
and descriptor, `lockForTransfer`, `setTransfer`, any sequence of
`initializeTransfer`, `timePassed(d)` and `abortTransfer` calls, and then
`finishTransfer` all succeed and end in the idle state: no lock, no file
transfer, no list transfer, no request, and `getTransferMonitor()` is null;
`getTransferAborted()` is then true exactly when `abortTransfer` was among the
calls in between. -/
theorem file_transfer_lifecycle (u : Uninitialized) (m : Nat) (download : Bool)
    (path file : String) (fxp passive : Bool) (addr : String) (ssl : Bool)
    (mid : List MidOp) :
    ∃ s : ConnStateTracker,
      run (new u) (opsFileTransfer m download path file fxp passive addr ssl mid) = some s ∧
      s.transferlocked = false ∧ s.transfer = false ∧ s.listtransfer = false ∧
      s.request = none ∧ s.isIdle = true ∧ s.getTransferMonitor = none ∧
      (s.getTransferAborted = true ↔ MidOp.abortTransfer ∈ mid) := by
  obtain ⟨sA, hA, hAl, hAt, hAr, hAm, hAli, hAab⟩ :=
    lockForTransfer_flags (new u) (some m) download rfl rfl rfl
  obtain ⟨sB, hB, hBl, hBt, hBr, hBm, hBli, hBab⟩ :=
    setTransfer_flags sA path file fxp passive addr ssl hAl hAt hAr (by rw [hAm]; rfl)
  obtain ⟨sC, hC, hCl, hCt, hCli, hCr, hCm, hCab⟩ := run_mid mid sB
  have hli : sC.listtransfer = false := by rw [hCli, hBli, hAli]; rfl
  refine ⟨sC.finishTransfer, ?_, ?_⟩
  · simp [opsFileTransfer, run, step, run_append, hA, hB, hC]
  · simp [finishTransfer, getTransferMonitor, getTransferAborted, isIdle, hli, hCr, hBr,
      hCab, hBab]

/-- The end-to-end scenario of C6: `lockForTransfer(M1, download)`,
`setTransfer("/inc", "f.txt", false, false, "1.2.3.4", true)`,
`initializeTransfer()`, `timePassed(5)`, `abortTransfer()`, `finishTransfer()`
ends idle with `getTransferAborted()` true. -/
theorem file_transfer_lifecycle_witness :
    ∃ s : ConnStateTracker,
      run (new exampleUninit)
        [Op.lockForTransfer (some 1) true,
         Op.setTransfer "/inc" "f.txt" false false "1.2.3.4" true,
         Op.initializeTransfer, Op.timePassed 5, Op.abortTransfer, Op.finishTransfer]
        = some s ∧
      s.isIdle = true ∧ s.getTransferMonitor = none ∧ s.getTransferAborted = true := by
  obtain ⟨s, h1, -, -, -, -, h6, h7, h8⟩ :=
    file_transfer_lifecycle exampleUninit 1 true "/inc" "f.txt" false false "1.2.3.4" true
      [MidOp.initializeTransfer, MidOp.timePassed 5, MidOp.abortTransfer]
  exact ⟨s, h1, h6, h7, h8.mpr (by decide)⟩

/-- C7: `finishTransfer` is total and has exactly two behaviours.  With a list
transfer active it clears `listtransfer` and changes nothing else (lock, file
transfer, file monitor, file descriptor, `initialized`, `aborted`, request,
clock and idle time stay).  Otherwise it clears `transfer` and `transferlocked`,
sets the file monitor to null and changes nothing else.  Hence from a state
with lock, file transfer and list transfer all set, the first call leaves lock
and file transfer set (not idle), and the second call clears them and the
monitor, which is the idle state when no request is present. -/
theorem finishTransfer_effect (s : ConnStateTracker) :
    (s.listtransfer = true →
        s.finishTransfer = { s with listtransfer := false } ∧
        s.finishTransfer.listtransfer = false ∧
        s.finishTransfer.transferlocked = s.transferlocked ∧
        s.finishTransfer.transfer = s.transfer ∧ s.finishTransfer.tm = s.tm ∧
        s.finishTransfer.path = s.path ∧ s.finishTransfer.file = s.file ∧
        s.finishTransfer.fxp = s.fxp ∧ s.finishTransfer.passive = s.passive ∧
        s.finishTransfer.addr = s.addr ∧ s.finishTransfer.ssl = s.ssl ∧
        s.finishTransfer.initialized = s.initialized ∧
        s.finishTransfer.aborted = s.aborted ∧ s.finishTransfer.request = s.request ∧
        s.finishTransfer.time = s.time ∧ s.finishTransfer.idletime = s.idletime) ∧
      (s.listtransfer = false →
        s.finishTransfer =
          { s with transfer := false, transferlocked := false, tm := none } ∧
        s.finishTransfer.transfer = false ∧ s.finishTransfer.transferlocked = false ∧
        s.finishTransfer.tm = none ∧ s.finishTransfer.listtransfer = false) ∧
      (s.transferlocked = true → s.transfer = true → s.listtransfer = true →
        s.finishTransfer.transferlocked = true ∧ s.finishTransfer.transfer = true ∧
        s.finishTransfer.listtransfer = false ∧ s.finishTransfer.isIdle = false ∧
        s.finishTransfer.finishTransfer.transferlocked = false ∧
        s.finishTransfer.finishTransfer.transfer = false ∧
        s.finishTransfer.finishTransfer.listtransfer = false ∧
        s.finishTransfer.finishTransfer.tm = none ∧
        s.finishTransfer.finishTransfer.getTransferMonitor = none ∧
        s.finishTransfer.finishTransfer.request = s.request ∧
        (s.request = none → s.finishTransfer.finishTransfer.isIdle = true)) := by
  refine ⟨?_, ?_, ?_⟩
  · intro hli
    simp [finishTransfer, hli]
  · intro hli
    simp [finishTransfer, hli]
  · intro hl ht hli
    simp [finishTransfer, getTransferMonitor, isIdle, hl, ht, hli]

/-- Witness of C7: the state with lock, file transfer and list transfer all
set is reached on a fresh tracker, and two `finishTransfer` calls are needed to
make it idle. -/
theorem finishTransfer_effect_witness :
    run (new exampleUninit) opsListLockBegin = some stateListLockedActive ∧
      stateListLockedActive.finishTransfer.isIdle = false ∧
      stateListLockedActive.finishTransfer.finishTransfer.isIdle = true :=
  ⟨by decide,
    ((finishTransfer_effect stateListLockedActive).2.2 rfl rfl rfl).2.2.2.1,
    ((finishTransfer_effect stateListLockedActive).2.2 rfl rfl rfl).2.2.2.2.2.2.2.2.2.2 rfl⟩

theorem wrapInt_of_range (x : Int) (hlo : INT_MIN ≤ x) (hhi : x ≤ INT_MAX) :
    wrapInt x = x := by
  unfold wrapInt
  unfold INT_MIN at hlo
  unfold INT_MAX at hhi
  omega

theorem checkTimes_succ (s : ConnStateTracker) (sr : SiteRacePtr) (k : Nat) :
    checkTimes s sr (k + 1) = (checkTimes s sr k).check sr := rfl

theorem check_lastChecked (s : ConnStateTracker) (t : SiteRacePtr) :
    (s.check t).lastChecked = t := by
  unfold check lastChecked
  split
  · assumption
  · rfl

theorem check_checkCount_same (s : ConnStateTracker) (t : SiteRacePtr)
    (h : s.lastChecked = t) : (s.check t).checkCount = wrapInt (s.checkCount + 1) := by
  unfold lastChecked at h
  unfold check checkCount
  rw [if_pos h]

theorem check_checkCount_other (s : ConnStateTracker) (t : SiteRacePtr)
    (h : s.lastChecked ≠ t) : (s.check t).checkCount = 1 := by
  unfold lastChecked at h
  unfold check checkCount
  rw [if_neg h]

/-- On a fresh tracker `k` checks of one target count to `k`, as long as `k`
is an `int` value. -/
theorem checkTimes_new (u : Uninitialized) (a : SiteRacePtr) (k : Nat) :
    (k : Int) ≤ INT_MAX →
      (checkTimes (new u) a k).checkCount = (k : Int) ∧
      (1 ≤ k → (checkTimes (new u) a k).lastChecked = a) := by
  induction k with
  | zero => intro _; exact ⟨rfl, fun h => absurd h (by decide)⟩
  | succ k ih =>
    intro hk
    have hk1 : (k : Int) ≤ INT_MAX := by push_cast at hk; omega
    obtain ⟨hc, hl⟩ := ih hk1
    rw [checkTimes_succ]
    refine ⟨?_, fun _ => check_lastChecked _ _⟩
    by_cases hsame : (checkTimes (new u) a k).lastChecked = a
    · rw [check_checkCount_same _ _ hsame, hc, wrapInt_of_range]
      · push_cast; rfl
      · unfold INT_MIN; omega
      · push_cast at hk; exact hk
    · rw [check_checkCount_other _ _ hsame]
      cases k with
      | zero => simp
      | succ j => exact absurd (hl (by omega)) hsame

theorem step_keeps_lastchecked (s s1 : ConnStateTracker) (op : Op)
    (hop : ∀ sr : SiteRacePtr, op ≠ Op.check sr) (h : step s op = some s1) :
    s1.lastchecked = s.lastchecked ∧ s1.lastcheckedcount = s.lastcheckedcount := by
  cases op <;>
    simp only [step, use_eq, setDisconnected_eq, setTransfer_eq, setList_eq,
      lockForTransfer_eq, Option.some.injEq] at h
  case check sr => exact absurd rfl (hop sr)
  all_goals (try split at h)
  all_goals (try simp at h)
  all_goals subst h
  all_goals
    simp only [delayedCommand, timePassed, resetIdleTime, setLoggedIn,
      finishTransfer, abortTransfer, setRequest, finishRequest, initializeTransfer]
  all_goals (try split)
  all_goals simp_all

/-- C8 as stated fails at the top of the `int` range: after 2147483647 checks
of one target on a fresh tracker the count is 2147483647, and one more check of
the same target leaves the count -2147483648, not 2147483648. -/
theorem check_count_overflows :
    (checkTimes (new exampleUninit) (some 7) 2147483647).checkCount = 2147483647 ∧
      (checkTimes (new exampleUninit) (some 7) 2147483647).lastChecked = some 7 ∧
      (checkTimes (new exampleUninit) (some 7) 2147483648).checkCount = -2147483648 ∧
      (checkTimes (new exampleUninit) (some 7) 2147483648).checkCount ≠ 2147483648 := by
  obtain ⟨hc, hl⟩ := checkTimes_new exampleUninit (some 7) 2147483647 (by decide)
  have hl1 := hl (by decide)
  have hc1 : (checkTimes (new exampleUninit) (some 7) 2147483647).checkCount
      = 2147483647 := hc.trans (by norm_num)
  have h1 : (checkTimes (new exampleUninit) (some 7) (2147483647 + 1)).checkCount
      = -2147483648 := by
    rw [checkTimes_succ, check_checkCount_same _ _ hl1, hc1]
    decide
  refine ⟨hc1, hl1, h1, ?_⟩
  rw [h1]
  decide

/-- C8 (amended): in every state, after `check(t)` the remembered target is `t`
and the count is 1 if the remembered target was another one; if the remembered
target was `t` and the old count is an `int` value below the largest `int`, the
count is the old count plus one.  For distinct targets `a` and `b`,
`check(a); check(a); check(b)` leaves the target `b` and the count 1 in every
state.  On a fresh tracker `k` checks of `a` in a row leave the count `k` for
`1 ≤ k ≤ 2147483647`, so two leave 2.  In every state, no call other than
`check` changes the remembered target or the count. -/
theorem check_effect (s : ConnStateTracker) (t a b : SiteRacePtr) (u : Uninitialized)
    (k : Nat) :
    (s.check t).lastChecked = t ∧
      (s.lastChecked ≠ t → (s.check t).checkCount = 1) ∧
      (s.lastChecked = t → INT_MIN ≤ s.checkCount → s.checkCount < INT_MAX →
        (s.check t).checkCount = s.checkCount + 1) ∧
      (a ≠ b →
        (((s.check a).check a).check b).lastChecked = b ∧
        (((s.check a).check a).check b).checkCount = 1) ∧
      (1 ≤ k → (k : Int) ≤ INT_MAX →
        (checkTimes (new u) a k).lastChecked = a ∧
        (checkTimes (new u) a k).checkCount = (k : Int)) ∧
      (((new u).check a).check a).checkCount = 2 ∧
      (∀ (op : Op) (s1 : ConnStateTracker), (∀ sr : SiteRacePtr, op ≠ Op.check sr) →
        step s op = some s1 →
          s1.lastChecked = s.lastChecked ∧ s1.checkCount = s.checkCount) := by
  refine ⟨check_lastChecked s t, ?_, ?_, ?_, ?_, ?_, ?_⟩
  · intro hother
    exact check_checkCount_other s t hother
  · intro hsame hlo hhi
    rw [check_checkCount_same s t hsame, wrapInt_of_range]
    · unfold INT_MIN at *; omega
    · unfold INT_MAX at *; omega
  · intro hab
    refine ⟨check_lastChecked _ b, ?_⟩
    apply check_checkCount_other
    rw [check_lastChecked]
    exact hab
  · intro hk1 hk
    exact ⟨(checkTimes_new u a k hk).2 hk1, (checkTimes_new u a k hk).1⟩
  · have h2 := (checkTimes_new u a 2 (by decide)).1
    simpa [checkTimes] using h2
  · intro op s1 hop hstep
    exact step_keeps_lastchecked s s1 op hop hstep

/-- Witness of C8 (amended): a tracker that has checked the target 7 once; a
second check of 7 counts 2, a check of 8 counts 1, `check(7); check(7); check(8)`
ends at the target 8 with the count 1, three checks of 7 on a fresh tracker
count 3, and `setLoggedIn()` keeps target and count. -/
theorem check_effect_witness :
    ((new exampleUninit).check (some 7)).lastChecked = some 7 ∧
      INT_MIN ≤ ((new exampleUninit).check (some 7)).checkCount ∧
      ((new exampleUninit).check (some 7)).checkCount < INT_MAX ∧
      (((new exampleUninit).check (some 7)).check (some 7)).checkCount
        = ((new exampleUninit).check (some 7)).checkCount + 1 ∧
      (((new exampleUninit).check (some 7)).check (some 8)).checkCount = 1 ∧
      ((((((new exampleUninit).check (some 7)).check (some 7)).check (some 7)).check
        (some 8)).lastChecked = some 8 ∧
       (((((new exampleUninit).check (some 7)).check (some 7)).check (some 7)).check
        (some 8)).checkCount = 1) ∧
      ((checkTimes (new exampleUninit) (some 7) 3).lastChecked = some 7 ∧
       (checkTimes (new exampleUninit) (some 7) 3).checkCount = 3) ∧
      (((new exampleUninit).check (some 7)).setLoggedIn.lastChecked = some 7 ∧
       ((new exampleUninit).check (some 7)).setLoggedIn.checkCount
        = ((new exampleUninit).check (some 7)).checkCount) :=
  ⟨by decide, by decide, by decide,
    (check_effect ((new exampleUninit).check (some 7)) (some 7) (some 7) (some 8)
      exampleUninit 3).2.2.1 (by decide) (by decide) (by decide),
    (check_effect ((new exampleUninit).check (some 7)) (some 8) (some 7) (some 8)
      exampleUninit 3).2.1 (by decide),
    (check_effect ((new exampleUninit).check (some 7)) (some 7) (some 7) (some 8)
      exampleUninit 3).2.2.2.1 (by decide),
    (check_effect ((new exampleUninit).check (some 7)) (some 7) (some 7) (some 8)
      exampleUninit 3).2.2.2.2.1 (by decide) (by decide),
    (check_effect ((new exampleUninit).check (some 7)) (some 7) (some 7) (some 8)
      exampleUninit 3).2.2.2.2.2.2 Op.setLoggedIn
      ((new exampleUninit).check (some 7)).setLoggedIn (by intro sr h; cases h) rfl⟩

/-- C9: `setDisconnected` fails fast exactly when, before the call, the transfer
lock is held or a list transfer is active or a file transfer is in progress or
a request is present. -/
theorem setDisconnected_fails_iff (s : ConnStateTracker) :
    s.setDisconnected = none ↔
      (s.transferlocked = true ∨ s.listtransfer = true ∨ s.transfer = true ∨
        s.request.isSome = true) := by
  rw [setDisconnected_eq]
  cases hl : s.transferlocked <;> cases hli : s.listtransfer <;> cases ht : s.transfer <;>
    cases hr : s.request <;> simp

/-- C10: in every state without lock, list transfer, file transfer and request,
`setDisconnected` succeeds, clears `loggedin`, sets the idle time to 0, leaves
the clock and every other member, and resets the delayed command weakly: a
scheduled persisting command stays scheduled unchanged, a command that is not
persisting is no longer scheduled.  So a command scheduled by
`delayedCommand(command, delay, arg, true)` is still scheduled after the call
with the same command, fire time and payload, and one scheduled with
`persisting = false` is cancelled; `use()` and `resetIdleTime()` cancel the
scheduled command whether it is persisting or not. -/
theorem setDisconnected_effect (s : ConnStateTracker) (command : String) (delay : Int)
    (arg : VoidPtr) (hl : s.transferlocked = false) (hli : s.listtransfer = false)
    (ht : s.transfer = false) (hr : s.request = none) :
    (∃ s1 : ConnStateTracker,
      s.setDisconnected = some s1 ∧
      s1 = { s with loggedin := false, delayedcommand := s.delayedcommand.weakReset,
                    idletime := 0 } ∧
      s1.loggedin = false ∧ s1.idletime = 0 ∧ s1.time = s.time ∧
      (s.delayedcommand.isActive = true → s.delayedcommand.persisting = true →
        s1.delayedcommand = s.delayedcommand ∧ s1.delayedcommand.isActive = true) ∧
      (s.delayedcommand.persisting = false → s1.delayedcommand.isActive = false)) ∧
    (∃ s2 : ConnStateTracker,
      (s.delayedCommand command delay arg true).setDisconnected = some s2 ∧
      s2.delayedcommand = (s.delayedCommand command delay arg true).delayedcommand ∧
      s2.delayedcommand.isActive = true ∧ s2.delayedcommand.command = command ∧
      s2.delayedcommand.triggertime = wrapInt (s.time + delay) ∧
      s2.delayedcommand.arg = arg) ∧
    (∃ s2 : ConnStateTracker,
      (s.delayedCommand command delay arg false).setDisconnected = some s2 ∧
      s2.delayedcommand.isActive = false) ∧
    (∀ persisting : Bool,
      (∃ s3 : ConnStateTracker,
        (s.delayedCommand command delay arg persisting).use = some s3 ∧
        s3.delayedcommand.isActive = false) ∧
      ((s.delayedCommand command delay arg persisting).resetIdleTime).delayedcommand.isActive
        = false) := by
  refine ⟨?_, ?_, ?_, ?_⟩
  · rw [setDisconnected_eq]
    simp only [hl, hli, ht, hr]
    refine ⟨_, rfl, rfl, rfl, rfl, rfl, ?_, ?_⟩
    · intro _ hp
      simp [DelayedCommand.weakReset, hp]
      assumption
    · intro hp
      simp [DelayedCommand.weakReset, DelayedCommand.reset, DelayedCommand.isActive, hp]
  · rw [setDisconnected_eq]
    simp only [delayedCommand, hl, hli, ht, hr]
    exact ⟨_, rfl, rfl, rfl, rfl, rfl, rfl⟩
  · rw [setDisconnected_eq]
    simp only [delayedCommand, hl, hli, ht, hr]
    exact ⟨_, rfl, rfl⟩
  · intro persisting
    constructor
    · rw [use_eq]
      simp only [delayedCommand, hl]
      exact ⟨_, rfl, rfl⟩
    · rfl

/-- Witness of C10: a fresh tracker, the command `QUIT` due in 10 ticks. -/
theorem setDisconnected_effect_witness :
    (new exampleUninit).transferlocked = false ∧
      (∃ s2 : ConnStateTracker,
        ((new exampleUninit).delayedCommand "QUIT" 10 none true).setDisconnected = some s2 ∧
        s2.delayedcommand.isActive = true ∧ s2.delayedcommand.command = "QUIT" ∧
        s2.delayedcommand.triggertime = 10) ∧
      (∃ s2 : ConnStateTracker,
        ((new exampleUninit).delayedCommand "QUIT" 10 none false).setDisconnected = some s2 ∧
        s2.delayedcommand.isActive = false) := by
  have h := setDisconnected_effect (new exampleUninit) "QUIT" 10 none rfl rfl rfl rfl
  obtain ⟨-, ⟨s2, g1, -, g3, g4, g5, -⟩, h3, -⟩ := h
  exact ⟨rfl, ⟨s2, g1, g3, g4, g5.trans (by decide)⟩, h3⟩

/-- C11: `use()` fails fast exactly when the transfer lock is held;
`resetIdleTime()` is total, so it succeeds in every state, the locked ones
included, and sets the idle time to 0; in every state without the lock `use()`
yields the very state `resetIdleTime()` yields: idle time 0, the delayed command
cancelled, every other member as before. -/
theorem use_resetIdleTime (s : ConnStateTracker) :
    (s.use = none ↔ s.transferlocked = true) ∧
      s.resetIdleTime.idletime = 0 ∧
      s.resetIdleTime = { s with delayedcommand := s.delayedcommand.reset, idletime := 0 } ∧
      s.resetIdleTime.delayedcommand.isActive = false ∧
      (s.transferlocked = true → s.use = none ∧ s.resetIdleTime.idletime = 0 ∧
        s.resetIdleTime.transferlocked = true) ∧
      (s.transferlocked = false → s.use = some s.resetIdleTime) := by
  refine ⟨?_, rfl, rfl, rfl, ?_, ?_⟩
  · rw [use_eq]
    cases s.transferlocked <;> simp
  · intro hl
    rw [use_eq]
    simp [hl, resetIdleTime]
  · intro hl
    rw [use_eq]
    simp [hl]

/-- Witness of C11: on the locked tracker `use()` fails and `resetIdleTime()`
zeroes the idle time; on a fresh tracker both yield the same state. -/
theorem use_resetIdleTime_witness :
    stateLocked.transferlocked = true ∧ stateLocked.use = none ∧
      stateLocked.resetIdleTime.idletime = 0 ∧
      (new exampleUninit).transferlocked = false ∧
      (new exampleUninit).use = some (new exampleUninit).resetIdleTime :=
  ⟨rfl, ((use_resetIdleTime stateLocked).2.2.2.2.1 rfl).1,
    ((use_resetIdleTime stateLocked).2.2.2.2.1 rfl).2.1, rfl,
    (use_resetIdleTime (new exampleUninit)).2.2.2.2.2 rfl⟩

theorem step_keeps_list_args (s s1 : ConnStateTracker) (op : Op) (last : Option ListArgs)
    (h : step s op = some s1)
    (hinv : s.listtransfer = true →
      last = some { tm := s.listtm, listpassive := s.listpassive, addr := s.listaddr,
                    ssl := s.listssl }) :
    s1.listtransfer = true →
      noteSetList last op = some { tm := s1.listtm, listpassive := s1.listpassive,
                                   addr := s1.listaddr, ssl := s1.listssl } := by
  cases op <;>
    simp only [step, use_eq, setDisconnected_eq, setTransfer_eq, setList_eq,
      lockForTransfer_eq, Option.some.injEq, noteSetList] at h ⊢
  all_goals (try split at h)
  all_goals (try simp at h)
  all_goals subst h
  all_goals
    simp only [delayedCommand, timePassed, check, resetIdleTime, setLoggedIn,
      finishTransfer, abortTransfer, setRequest, finishRequest, initializeTransfer]
  all_goals (try split)
  all_goals simp_all

theorem run_keeps_list_args (ops : List Op) :
    ∀ (s s1 : ConnStateTracker) (last : Option ListArgs), run s ops = some s1 →
      (s.listtransfer = true →
        last = some { tm := s.listtm, listpassive := s.listpassive, addr := s.listaddr,
                      ssl := s.listssl }) →
      s1.listtransfer = true →
        lastSetList last ops = some { tm := s1.listtm, listpassive := s1.listpassive,
                                      addr := s1.listaddr, ssl := s1.listssl } := by
  induction ops with
  | nil =>
    intro s s1 last h hinv
    simp only [run, Option.some.injEq] at h
    subst h
    exact hinv
  | cons op ops ih =>
    intro s s1 last h hinv
    simp only [run] at h
    cases hstep : step s op with
    | none => simp [hstep] at h
    | some s2 =>
      rw [hstep] at h
      exact ih s2 s1 (noteSetList last op) h (step_keeps_list_args s s2 op last hstep hinv)

/-- C12 (accessor shadowing): in every state reached from a fresh tracker with
a list transfer active, `getTransferType()` is `CST_LIST`, `getTransferPassive()`,
`getTransferAddr()`, `getTransferSSL()` and `getTransferMonitor()` return the
arguments of the most recent `setList` call, and `getTransferFXP()` is false,
whatever the file-transfer members hold; with no list transfer active the
accessors return the file-transfer kind, passive flag, address, TLS flag and
fxp flag.  In particular, in any state with a file transfer with `fxp = true`
and a list transfer both active, `getTransferFXP()` is false and
`getTransferMonitor()` is the list monitor. -/
theorem accessor_shadowing (u : Uninitialized) (ops : List Op) (s : ConnStateTracker)
    (hrun : run (new u) ops = some s) :
    (s.listtransfer = true →
        ∃ a : ListArgs, lastSetList none ops = some a ∧
          s.getTransferType = TransferType.CST_LIST ∧
          s.getTransferPassive = a.listpassive ∧ s.getTransferAddr = a.addr ∧
          s.getTransferSSL = a.ssl ∧ s.getTransferMonitor = a.tm ∧
          s.getTransferFXP = false) ∧
      (s.listtransfer = false →
        s.getTransferType = s.type ∧ s.getTransferPassive = s.passive ∧
        s.getTransferAddr = s.addr ∧ s.getTransferSSL = s.ssl ∧
        s.getTransferFXP = s.fxp) ∧
      (∀ t : ConnStateTracker, t.listtransfer = true → t.transfer = true → t.fxp = true →
        t.getTransferFXP = false ∧ t.getTransferMonitor = t.listtm) := by
  refine ⟨?_, ?_, ?_⟩
  · intro hli
    have h := run_keeps_list_args ops (new u) s none hrun (by simp [new]) hli
    refine ⟨_, h, ?_⟩
    simp [getTransferType, getTransferPassive, getTransferAddr, getTransferSSL,
      getTransferMonitor, getTransferFXP, hli]
  · intro hli
    simp [getTransferType, getTransferPassive, getTransferAddr, getTransferSSL,
      getTransferFXP, hli]
  · intro t hli _ _
    simp [getTransferFXP, getTransferMonitor, hli]

/-- Witness of C12: a list transfer with the monitor `M2`, then a lock with the
monitor `M1` and a file transfer with `fxp = true`; the accessors answer for the
list transfer. -/
theorem accessor_shadowing_witness :
    run (new exampleUninit) opsListLockBegin = some stateListLockedActive ∧
      stateListLockedActive.listtransfer = true ∧ stateListLockedActive.fxp = true ∧
      stateListLockedActive.tm = some 1 ∧
      stateListLockedActive.getTransferFXP = false ∧
      stateListLockedActive.getTransferMonitor = some 2 := by
  obtain ⟨a, ha, -, -, -, -, hm, hf⟩ :=
    (accessor_shadowing exampleUninit opsListLockBegin stateListLockedActive
      (by decide)).1 rfl
  have ha2 : a = { tm := some 2, listpassive := true, addr := "", ssl := false } := by
    have h2 : lastSetList none opsListLockBegin
        = some { tm := some 2, listpassive := true, addr := "", ssl := false } := by decide
    rw [h2] at ha
    exact (Option.some.inj ha).symm
  subst ha2
  exact ⟨by decide, rfl, rfl, rfl, hf, hm⟩

theorem step_keeps_aborted (s s1 : ConnStateTracker) (op : Op)
    (hop : ∀ (path file : String) (fxp passive : Bool) (addr : String) (ssl : Bool),
      op ≠ Op.setTransfer path file fxp passive addr ssl)
    (h : step s op = some s1) (hab : s.aborted = true) : s1.aborted = true := by
  cases op <;>
    simp only [step, use_eq, setDisconnected_eq, setList_eq,
      lockForTransfer_eq, Option.some.injEq] at h
  case setTransfer path file fxp passive addr ssl =>
    exact absurd rfl (hop path file fxp passive addr ssl)
  all_goals (try split at h)
  all_goals (try simp at h)
  all_goals subst h
  all_goals
    simp only [delayedCommand, timePassed, check, resetIdleTime, setLoggedIn,
      finishTransfer, abortTransfer, setRequest, finishRequest, initializeTransfer]
  all_goals (try split)
  all_goals simp_all

/-- C13: `abortTransfer` is total, sets `aborted` and changes no other member
(so not `transfer`, `transferlocked` or `listtransfer`); once
`getTransferAborted()` is true it is still true after every successful call
other than `setTransfer` (`finishTransfer`, `setList`, `lockForTransfer` and
`setDisconnected` among them), and after every successful `setTransfer` it is
false. -/
theorem abortTransfer_effect (s : ConnStateTracker) :
    s.abortTransfer = { s with aborted := true } ∧
      s.abortTransfer.getTransferAborted = true ∧
      s.abortTransfer.transfer = s.transfer ∧
      s.abortTransfer.transferlocked = s.transferlocked ∧
      s.abortTransfer.listtransfer = s.listtransfer ∧
      (∀ (op : Op) (s1 : ConnStateTracker),
        (∀ (path file : String) (fxp passive : Bool) (addr : String) (ssl : Bool),
          op ≠ Op.setTransfer path file fxp passive addr ssl) →
        s.getTransferAborted = true → step s op = some s1 →
          s1.getTransferAborted = true) ∧
      (∀ (path file : String) (fxp passive : Bool) (addr : String) (ssl : Bool)
          (s1 : ConnStateTracker),
        s.setTransfer path file fxp passive addr ssl = some s1 →
          s1.getTransferAborted = false) := by
  refine ⟨rfl, rfl, rfl, rfl, rfl, ?_, ?_⟩
  · intro op s1 hop hab hstep
    exact step_keeps_aborted s s1 op hop hstep hab
  · intro path file fxp passive addr ssl s1 h
    rw [setTransfer_eq] at h
    split at h
    · simp at h
    · simp only [Option.some.injEq] at h
      subst h
      rfl

/-- Witness of C13: on the locked tracker with an abort recorded, the flag
survives `finishTransfer` and is cleared by the next `setTransfer`. -/
theorem abortTransfer_effect_witness :
    stateLocked.abortTransfer.getTransferAborted = true ∧
      stateLocked.abortTransfer.finishTransfer.getTransferAborted = true ∧
      (∃ s1 : ConnStateTracker,
        stateLocked.abortTransfer.setTransfer "/inc" "f.txt" false false "1.2.3.4" true
          = some s1 ∧ s1.getTransferAborted = false) :=
  ⟨(abortTransfer_effect stateLocked).2.1,
    (abortTransfer_effect stateLocked.abortTransfer).2.2.2.2.2.1 Op.finishTransfer
      stateLocked.abortTransfer.finishTransfer (by intros; simp) rfl rfl,
    ⟨stateLockedActive, by decide,
      (abortTransfer_effect stateLocked.abortTransfer).2.2.2.2.2.2 "/inc" "f.txt" false false
        "1.2.3.4" true stateLockedActive (by decide)⟩⟩

/-- C14 as stated fails: with the lock held and no request present `setTransfer`
still trips `util::assert(!transfer)` when a file transfer is already in
progress, and `util::assert(tm)` when the lock was taken with a null monitor. -/
theorem setTransfer_locked_no_request_fails :
    run (new exampleUninit) opsLockBegin = some stateLockedActive ∧
      stateLockedActive.transferlocked = true ∧ stateLockedActive.request = none ∧
      stateLockedActive.setTransfer "/inc" "g.txt" false false "1.2.3.4" true = none ∧
      run (new exampleUninit) opsLockNull = some stateLockedNull ∧
      stateLockedNull.transferlocked = true ∧ stateLockedNull.request = none ∧
      stateLockedNull.setTransfer "/inc" "f.txt" false false "1.2.3.4" true = none := by
  decide

/-- C14 (amended): `setTransfer` fails fast exactly when the lock is not held or
a file transfer is already in progress or a request is present or the stored
monitor is null.  In every state with the lock held, no file transfer, no
request and a non-null monitor it succeeds and yields `transfer = true`,
`initialized = false`, `aborted = false` with the descriptor stored as given and
every other member as before; it fails whenever the lock is not held or a
request is present. -/
theorem setTransfer_precondition (s : ConnStateTracker) (path file : String)
    (fxp passive : Bool) (addr : String) (ssl : Bool) :
    (s.setTransfer path file fxp passive addr ssl = none ↔
        (s.transferlocked = false ∨ s.transfer = true ∨ s.request.isSome = true ∨
          s.tm = none)) ∧
      (s.transferlocked = true → s.transfer = false → s.request = none →
        s.tm.isSome = true →
        ∃ s1 : ConnStateTracker,
          s.setTransfer path file fxp passive addr ssl = some s1 ∧
          s1 = { s with transfer := true, initialized := false, aborted := false,
                        path := path, file := file, fxp := fxp, passive := passive,
                        addr := addr, ssl := ssl } ∧
          s1.transfer = true ∧ s1.initialized = false ∧ s1.aborted = false ∧
          s1.path = path ∧ s1.file = file ∧ s1.fxp = fxp ∧ s1.passive = passive ∧
          s1.addr = addr ∧ s1.ssl = ssl) ∧
      (s.transferlocked = false ∨ s.request.isSome = true →
        s.setTransfer path file fxp passive addr ssl = none) := by
  have hiff : s.setTransfer path file fxp passive addr ssl = none ↔
      (s.transferlocked = false ∨ s.transfer = true ∨ s.request.isSome = true ∨
        s.tm = none) := by
    rw [setTransfer_eq]
    cases hl : s.transferlocked <;> cases ht : s.transfer <;> cases hr : s.request <;>
      cases hm : s.tm <;> simp
  refine ⟨hiff, ?_, ?_⟩
  · intro hl ht hr hm
    rw [setTransfer_eq]
    simp only [hl, ht, hr, hm]
    exact ⟨_, rfl, rfl, rfl, rfl, rfl, rfl, rfl, rfl, rfl, rfl, rfl⟩
  · intro h
    rw [hiff]
    rcases h with h | h
    · exact Or.inl h
    · exact Or.inr (Or.inr (Or.inl h))

/-- Witness of C14 (amended): on the locked tracker with the monitor `M1`
`setTransfer` succeeds; on a fresh tracker, without the lock, it fails. -/
theorem setTransfer_precondition_witness :
    stateLocked.transferlocked = true ∧ stateLocked.tm.isSome = true ∧
      (∃ s1 : ConnStateTracker,
        stateLocked.setTransfer "/inc" "f.txt" false false "1.2.3.4" true = some s1 ∧
        s1.transfer = true ∧ s1.initialized = false ∧ s1.aborted = false) ∧
      (new exampleUninit).setTransfer "/inc" "f.txt" false false "1.2.3.4" true = none := by
  obtain ⟨s1, h1, -, h3, h4, h5, -⟩ :=
    (setTransfer_precondition stateLocked "/inc" "f.txt" false false "1.2.3.4" true).2.1
      rfl rfl rfl rfl
  exact ⟨rfl, rfl, ⟨s1, h1, h3, h4, h5⟩,
    (setTransfer_precondition (new exampleUninit) "/inc" "f.txt" false false "1.2.3.4"
      true).2.2 (Or.inl rfl)⟩

/-- C15: `setList` fails fast exactly when, before the call, the transfer lock
is held or a list transfer is active or a file transfer is in progress; the
request plays no part.  On success it sets `listtransfer`, clears
`listinitialized`, stores the list monitor, passive flag, address and TLS flag,
sets the idle time to 0 and cancels the delayed command; the file-transfer
members, the request and every other member stay as before. -/
theorem setList_effect (s : ConnStateTracker) (tm : TransferMonitorPtr)
    (listpassive : Bool) (addr : String) (ssl : Bool) :
    (s.setList tm listpassive addr ssl = none ↔
        (s.transferlocked = true ∨ s.listtransfer = true ∨ s.transfer = true)) ∧
      (∀ r : Option SiteLogicRequest,
        ({ s with request := r }.setList tm listpassive addr ssl = none ↔
          s.setList tm listpassive addr ssl = none)) ∧
      (s.transferlocked = false → s.listtransfer = false → s.transfer = false →
        ∃ s1 : ConnStateTracker,
          s.setList tm listpassive addr ssl = some s1 ∧
          s1 = { s with delayedcommand := s.delayedcommand.reset, idletime := 0,
                        listtransfer := true, listinitialized := false, listtm := tm,
                        listpassive := listpassive, listaddr := addr, listssl := ssl } ∧
          s1.listtransfer = true ∧ s1.listinitialized = false ∧ s1.listtm = tm ∧
          s1.listpassive = listpassive ∧ s1.listaddr = addr ∧ s1.listssl = ssl ∧
          s1.idletime = 0 ∧ s1.delayedcommand.isActive = false ∧
          s1.transfer = s.transfer ∧ s1.transferlocked = s.transferlocked ∧
          s1.tm = s.tm ∧ s1.initialized = s.initialized ∧ s1.aborted = s.aborted ∧
          s1.type = s.type ∧ s1.path = s.path ∧ s1.file = s.file ∧ s1.fxp = s.fxp ∧
          s1.passive = s.passive ∧ s1.addr = s.addr ∧ s1.ssl = s.ssl ∧
          s1.request = s.request) := by
  refine ⟨?_, ?_, ?_⟩
  · rw [setList_eq]
    cases hl : s.transferlocked <;> cases hli : s.listtransfer <;> cases ht : s.transfer <;>
      simp
  · intro r
    simp only [setList_eq]
    cases hl : s.transferlocked <;> cases hli : s.listtransfer <;> cases ht : s.transfer <;>
      simp
  · intro hl hli ht
    rw [setList_eq]
    simp only [hl, hli, ht]
    refine ⟨_, rfl, rfl, ?_⟩
    and_intros
    all_goals rfl

/-- Witness of C15: with a request pending and nothing else held, `setList`
succeeds and keeps the request. -/
theorem setList_effect_witness :
    stateRequestPending.request.isSome = true ∧
      ∃ s1 : ConnStateTracker,
        stateRequestPending.setList (some 2) true "" false = some s1 ∧
        s1.listtransfer = true ∧ s1.listinitialized = false ∧
        s1.request = stateRequestPending.request := by
  obtain ⟨s1, h1, -, h3, h4, -, -, -, -, -, -, -, -, -, -, -, -, -, -, -, -, -, -, h23⟩ :=
    (setList_effect stateRequestPending (some 2) true "" false).2.2 rfl rfl rfl
  exact ⟨rfl, s1, h1, h3, h4, h23⟩

theorem wrapInt_add_wrapInt (a b : Int) : wrapInt (wrapInt a + b) = wrapInt (a + b) := by
  unfold wrapInt
  omega

theorem step_time (s s1 : ConnStateTracker) (op : Op) (h : step s op = some s1) :
    s1.time = (match op with
      | Op.timePassed time => wrapInt (s.time + time)
      | _ => s.time) := by
  cases op <;>
    simp only [step, use_eq, setDisconnected_eq, setTransfer_eq, setList_eq,
      lockForTransfer_eq, Option.some.injEq] at h
  all_goals (try split at h)
  all_goals (try simp at h)
  all_goals subst h
  all_goals
    simp only [delayedCommand, timePassed, check, resetIdleTime, setLoggedIn,
      finishTransfer, abortTransfer, setRequest, finishRequest, initializeTransfer]
  all_goals (try split)
  all_goals simp_all

theorem run_time (ops : List Op) :
    ∀ (s s1 : ConnStateTracker) (t : Int), run s ops = some s1 → s.time = wrapInt t →
      s1.time = wrapInt (t + sumDeltas ops) := by
  induction ops with
  | nil =>
    intro s s1 t h ht
    simp only [run, Option.some.injEq] at h
    subst h
    simpa [sumDeltas] using ht
  | cons op ops ih =>
    intro s s1 t h ht
    simp only [run] at h
    cases hstep : step s op with
    | none => simp [hstep] at h
    | some s2 =>
      rw [hstep] at h
      have h2 := step_time s s2 op hstep
      cases op
      case timePassed d =>
        simp only at h2
        rw [ht, wrapInt_add_wrapInt] at h2
        have := ih s2 s1 (t + d) h h2
        simpa [sumDeltas, add_assoc] using this
      all_goals
        simp only at h2
        have := ih s2 s1 t h (h2.trans ht)
        simpa [sumDeltas] using this

/-- C16: `timePassed(d)` adds `d` to the clock and to the idle time (in `int`
arithmetic) and hands the new clock value to the delayed command when one is
scheduled, leaving the delayed command alone otherwise; no other call changes
the clock.  Hence on a tracker reached from a fresh one by a call sequence with
the `timePassed` deltas `d1, ..., dn`, the clock is their sum and
`delayedCommand(command, delay, arg, persisting)` schedules the command with
the fire time `(d1 + ... + dn) + delay`, both in `int` arithmetic, and the
shorter forms are the long form with `arg = NULL` and `persisting = false`. -/
theorem clock_and_schedule (u : Uninitialized) (ops : List Op) (s : ConnStateTracker)
    (command : String) (delay : Int) (arg : VoidPtr) (persisting : Bool)
    (hrun : run (new u) ops = some s) :
    (∀ (t : ConnStateTracker) (d : Int),
        (t.timePassed d).time = wrapInt (t.time + d) ∧
        (t.timePassed d).idletime = wrapInt (t.idletime + d) ∧
        (t.delayedcommand.isActive = true →
          (t.timePassed d).delayedcommand
            = t.delayedcommand.currentTime (wrapInt (t.time + d))) ∧
        (t.delayedcommand.isActive = false →
          (t.timePassed d).delayedcommand = t.delayedcommand)) ∧
      (∀ (t t1 : ConnStateTracker) (op : Op), (∀ d : Int, op ≠ Op.timePassed d) →
        step t op = some t1 → t1.time = t.time) ∧
      s.time = wrapInt (sumDeltas ops) ∧
      (s.delayedCommand command delay arg persisting).delayedcommand
        = s.delayedcommand.set command (wrapInt (sumDeltas ops + delay)) arg persisting ∧
      (s.delayedCommand command delay arg persisting).delayedcommand.isActive = true ∧
      (s.delayedCommand command delay arg persisting).delayedcommand.triggertime
        = wrapInt (sumDeltas ops + delay) ∧
      s.delayedCommand3 command delay arg = s.delayedCommand command delay arg false ∧
      s.delayedCommand2 command delay = s.delayedCommand command delay none false := by
  have htime : s.time = wrapInt (sumDeltas ops) := by
    have h := run_time ops (new u) s 0 hrun (by simp [new, wrapInt])
    simpa using h
  have hfire : wrapInt (s.time + delay) = wrapInt (sumDeltas ops + delay) := by
    rw [htime, wrapInt_add_wrapInt]
  refine ⟨?_, ?_, htime, ?_, rfl, ?_, rfl, rfl⟩
  · intro t d
    refine ⟨?_, ?_, ?_, ?_⟩
    · simp only [timePassed]; split <;> rfl
    · simp only [timePassed]; split <;> rfl
    · intro h; simp [timePassed, h]
    · intro h; simp [timePassed, h]
  · intro t t1 op hop hstep
    have h := step_time t t1 op hstep
    cases op
    case timePassed d => exact absurd rfl (hop d)
    all_goals exact h
  · simp only [delayedCommand, hfire]
  · simp only [delayedCommand, DelayedCommand.set, hfire]

/-- Witness of C16: after `timePassed(5)`, `setLoggedIn()`, `timePassed(7)` on a
fresh tracker the clock is at 12 and `delayedCommand("NOOP", 10)` is scheduled
for 22. -/
theorem clock_and_schedule_witness :
    run (new exampleUninit) opsTicks = some stateClock12 ∧
      stateClock12.time = 12 ∧
      (stateClock12.delayedCommand2 "NOOP" 10).delayedcommand.triggertime = 22 ∧
      (stateClock12.delayedCommand2 "NOOP" 10).delayedcommand.arg = none ∧
      (stateClock12.delayedCommand2 "NOOP" 10).delayedcommand.persisting = false := by
  have h := clock_and_schedule exampleUninit opsTicks stateClock12 "NOOP" 10 none false
    (by decide)
  obtain ⟨-, -, h3, -, -, h6, -, h8⟩ := h
  refine ⟨by decide, rfl, ?_, ?_, ?_⟩
  · rw [h8, h6]; decide
  · rw [h8]; rfl
  · rw [h8]; rfl

/-- C17 (query predicates): in every state `hasTransfer()` is `listtransfer` or
`transfer`, `isListOrTransferLocked()` is `listtransfer` or `transferlocked`,
`isHardLocked()` is `transferlocked` or a request present, and `isLocked()` is
`listtransfer` or `transferlocked` or a request present; so `isHardLocked()`
implies `isLocked()`, and with only a list transfer active (no lock, no
request) `isLocked()` is true and `isHardLocked()` is false. -/
theorem query_predicates (s : ConnStateTracker) :
    s.hasTransfer = (s.listtransfer || s.transfer) ∧
      s.isListOrTransferLocked = (s.listtransfer || s.transferlocked) ∧
      s.isHardLocked = (s.transferlocked || s.request.isSome) ∧
      s.isLocked = (s.listtransfer || s.transferlocked || s.request.isSome) ∧
      (s.isHardLocked = true → s.isLocked = true) ∧
      (s.listtransfer = true → s.transferlocked = false → s.request = none →
        s.isLocked = true ∧ s.isHardLocked = false) := by
  refine ⟨rfl, rfl, rfl, rfl, ?_, ?_⟩
  · simp only [isHardLocked, isLocked, isListOrTransferLocked, isListLocked,
      isTransferLocked, hasRequest]
    cases s.listtransfer <;> cases s.transferlocked <;> cases s.request <;> simp
  · intro hli hl hr
    simp [isHardLocked, isLocked, isListOrTransferLocked, isListLocked,
      isTransferLocked, hasRequest, hli, hl, hr]

/-- Witness of C17: with only a list transfer active the tracker is locked but
not hard-locked. -/
theorem query_predicates_witness :
    stateListActive.listtransfer = true ∧ stateListActive.transferlocked = false ∧
      stateListActive.request = none ∧
      stateListActive.isLocked = true ∧ stateListActive.isHardLocked = false :=
  ⟨rfl, rfl, rfl, (query_predicates stateListActive).2.2.2.2.2 rfl rfl rfl⟩

theorem step_keeps_unlocked_no_monitor (s s1 : ConnStateTracker) (op : Op)
    (h : step s op = some s1) (hinv : s.transferlocked = false → s.tm = none) :
    s1.transferlocked = false → s1.tm = none := by
  cases op <;>
    simp only [step, use_eq, setDisconnected_eq, setTransfer_eq, setList_eq,
      lockForTransfer_eq, Option.some.injEq] at h
  all_goals (try split at h)
  all_goals (try simp at h)
  all_goals subst h
  all_goals
    simp only [delayedCommand, timePassed, check, resetIdleTime, setLoggedIn,
      finishTransfer, abortTransfer, setRequest, finishRequest, initializeTransfer]
  all_goals (try split)
  all_goals simp_all

theorem run_keeps_unlocked_no_monitor (ops : List Op) :
    ∀ s s1 : ConnStateTracker, run s ops = some s1 →
      (s.transferlocked = false → s.tm = none) →
      s1.transferlocked = false → s1.tm = none := by
  induction ops with
  | nil =>
    intro s s1 h hinv
    simp only [run, Option.some.injEq] at h
    subst h
    exact hinv
  | cons op ops ih =>
    intro s s1 h hinv
    simp only [run] at h
    cases hstep : step s op with
    | none => simp [hstep] at h
    | some s2 =>
      rw [hstep] at h
      exact ih s2 s1 h (step_keeps_unlocked_no_monitor s s2 op hstep hinv)

/-- C18 (invariant I7 for the monitor): in every state reached from a fresh
tracker by calls that pass their assertions, the stored file-transfer monitor
is null whenever the lock is not held; and in every state with neither a list
transfer active nor the lock held `getTransferMonitor()` returns null. -/
theorem unlocked_no_monitor (u : Uninitialized) (ops : List Op) (s : ConnStateTracker)
    (hrun : run (new u) ops = some s) :
    (s.transferlocked = false → s.tm = none) ∧
      (∀ t : ConnStateTracker, t.listtransfer = false → t.transferlocked = false →
        t.getTransferMonitor = none) := by
  refine ⟨run_keeps_unlocked_no_monitor ops (new u) s hrun (fun _ => rfl), ?_⟩
  intro t hli hl
  simp [getTransferMonitor, hli, hl]

/-- Witness of C18: after a listing and a file transfer have both finished the
file monitor is null and `getTransferMonitor()` returns null, although the list
monitor member still holds `M2`. -/
theorem unlocked_no_monitor_witness :
    run (new exampleUninit) opsListThenFile = some stateBothFinished ∧
      stateBothFinished.transferlocked = false ∧ stateBothFinished.listtm = some 2 ∧
      stateBothFinished.tm = none ∧ stateBothFinished.getTransferMonitor = none :=
  ⟨by decide, rfl, rfl,
    (unlocked_no_monitor exampleUninit opsListThenFile stateBothFinished (by decide)).1 rfl,
    (unlocked_no_monitor exampleUninit opsListThenFile stateBothFinished (by decide)).2
      stateBothFinished rfl rfl⟩

/-- C19 as stated fails: with a list transfer active and already initialized,
`transferInitialized()` is true immediately after a successful `setTransfer`,
because the read-back answers for the list transfer. -/
theorem transferInitialized_after_setTransfer_true :
    run (new exampleUninit) opsListInitLockBegin = some stateListInitLockedActive ∧
      stateListInitLockedActive.transfer = true ∧
      stateListInitLockedActive.initialized = false ∧
      stateListInitLockedActive.transferInitialized = true := by
  decide

/-- C19 (amended): `initializeTransfer` marks exactly one sub-state: with a list
transfer active it sets `listinitialized` and leaves `initialized`, otherwise it
sets `initialized` and leaves `listinitialized`.  `transferInitialized()` returns
`listinitialized` when a list transfer is active, else `transfer && initialized`.
So it is false right after every successful `setList`, false right after every
successful `setTransfer` made with no list transfer active (with one active it
is the `listinitialized` of that list transfer), and false whenever neither
kind of transfer is active; and with a file transfer and a list transfer both
active one `initializeTransfer` leaves the file transfer not initialized. -/
theorem initializeTransfer_effect (s : ConnStateTracker) :
    (s.listtransfer = true →
        s.initializeTransfer = { s with listinitialized := true } ∧
        s.initializeTransfer.listinitialized = true ∧
        s.initializeTransfer.initialized = s.initialized) ∧
      (s.listtransfer = false →
        s.initializeTransfer = { s with initialized := true } ∧
        s.initializeTransfer.initialized = true ∧
        s.initializeTransfer.listinitialized = s.listinitialized) ∧
      s.transferInitialized
        = (if s.listtransfer then s.listinitialized else s.transfer && s.initialized) ∧
      (∀ (tm : TransferMonitorPtr) (listpassive : Bool) (addr : String) (ssl : Bool)
          (s1 : ConnStateTracker),
        s.setList tm listpassive addr ssl = some s1 → s1.transferInitialized = false) ∧
      (∀ (path file : String) (fxp passive : Bool) (addr : String) (ssl : Bool)
          (s1 : ConnStateTracker),
        s.setTransfer path file fxp passive addr ssl = some s1 →
          (s.listtransfer = false → s1.transferInitialized = false) ∧
          (s.listtransfer = true → s1.transferInitialized = s.listinitialized)) ∧
      (s.listtransfer = false → s.transfer = false → s.transferInitialized = false) ∧
      (s.listtransfer = true → s.transfer = true → s.initialized = false →
        s.initializeTransfer.initialized = false ∧
        s.initializeTransfer.finishTransfer.transferInitialized = false) := by
  refine ⟨?_, ?_, rfl, ?_, ?_, ?_, ?_⟩
  · intro hli
    simp [initializeTransfer, hli]
  · intro hli
    simp [initializeTransfer, hli]
  · intro tm listpassive addr ssl s1 h
    rw [setList_eq] at h
    split at h
    · simp at h
    · simp only [Option.some.injEq] at h
      subst h
      rfl
  · intro path file fxp passive addr ssl s1 h
    rw [setTransfer_eq] at h
    split at h
    · simp at h
    · simp only [Option.some.injEq] at h
      subst h
      constructor
      · intro hli
        simp [transferInitialized, hli]
      · intro hli
        simp [transferInitialized, hli]
  · intro hli ht
    simp [transferInitialized, hli, ht]
  · intro hli ht hi
    simp [initializeTransfer, finishTransfer, transferInitialized, hli, hi]

/-- Witness of C19 (amended): with a file transfer and a list transfer both
active, one `initializeTransfer` marks the list transfer only. -/
theorem initializeTransfer_effect_witness :
    stateListLockedActive.listtransfer = true ∧ stateListLockedActive.transfer = true ∧
      stateListLockedActive.initializeTransfer.listinitialized = true ∧
      stateListLockedActive.initializeTransfer.initialized = false ∧
      stateListLockedActive.initializeTransfer.finishTransfer.transferInitialized = false :=
  ⟨rfl, rfl, ((initializeTransfer_effect stateListLockedActive).1 rfl).2.1,
    ((initializeTransfer_effect stateListLockedActive).2.2.2.2.2.2 rfl rfl rfl).1,
    ((initializeTransfer_effect stateListLockedActive).2.2.2.2.2.2 rfl rfl rfl).2⟩

theorem step_idletime (s s1 : ConnStateTracker) (op : Op) (h : step s op = some s1) :
    s1.idletime = (match op with
      | Op.timePassed time => wrapInt (s.idletime + time)
      | _ => if resetsIdle op then 0 else s.idletime) := by
  cases op <;>
    simp only [step, use_eq, setDisconnected_eq, setTransfer_eq, setList_eq,
      lockForTransfer_eq, Option.some.injEq, resetsIdle] at h ⊢
  all_goals (try split at h)
  all_goals (try simp at h)
  all_goals subst h
  all_goals
    simp only [delayedCommand, timePassed, check, resetIdleTime, setLoggedIn,
      finishTransfer, abortTransfer, setRequest, finishRequest, initializeTransfer]
  all_goals (try split)
  all_goals simp_all

theorem sumDeltas_nonneg (ops : List Op) (h : deltasNonneg ops = true) :
    0 ≤ sumDeltas ops := by
  induction ops with
  | nil => simp [sumDeltas]
  | cons op ops ih =>
    cases op
    case timePassed d =>
      simp only [deltasNonneg, Bool.and_eq_true, decide_eq_true_eq] at h
      have := ih h.2
      simp only [sumDeltas]
      omega
    all_goals
      simp only [deltasNonneg] at h
      simpa [sumDeltas] using ih h

theorem run_idle (ops : List Op) :
    ∀ s s1 : ConnStateTracker, run s ops = some s1 → deltasNonneg ops = true →
      s.time + sumDeltas ops ≤ INT_MAX → 0 ≤ s.idletime → s.idletime ≤ s.time →
      s1.time = s.time + sumDeltas ops ∧ s1.idletime = idleDeltas s.idletime ops ∧
        0 ≤ s1.idletime ∧ s1.idletime ≤ s1.time := by
  induction ops with
  | nil =>
    intro s s1 h _ _ h0 h1
    simp only [run, Option.some.injEq] at h
    subst h
    exact ⟨by simp [sumDeltas], rfl, h0, h1⟩
  | cons op ops ih =>
    intro s s1 h hnn hsum h0 h1
    simp only [run] at h
    cases hstep : step s op with
    | none => simp [hstep] at h
    | some s2 =>
      rw [hstep] at h
      have ht := step_time s s2 op hstep
      have hi := step_idletime s s2 op hstep
      cases op
      case timePassed d =>
        simp only [deltasNonneg, Bool.and_eq_true, decide_eq_true_eq] at hnn
        have hpos := sumDeltas_nonneg ops hnn.2
        simp only [sumDeltas] at hsum
        simp only at ht hi
        rw [wrapInt_of_range _ (by unfold INT_MIN; omega) (by omega)] at ht
        rw [wrapInt_of_range _ (by unfold INT_MIN; omega) (by omega)] at hi
        obtain ⟨g1, g2, g3, g4⟩ := ih s2 s1 h hnn.2 (by rw [ht]; omega) (by rw [hi]; omega)
          (by rw [ht, hi]; omega)
        refine ⟨?_, ?_, g3, g4⟩
        · rw [g1, ht]; simp only [sumDeltas]; omega
        · rw [g2, hi]; rfl
      all_goals
        simp only [deltasNonneg] at hnn
        simp only [sumDeltas] at hsum
        simp only at ht
        simp [resetsIdle] at hi
        obtain ⟨g1, g2, g3, g4⟩ := ih s2 s1 h hnn (by rw [ht]; exact hsum)
          (by omega) (by omega)
        refine ⟨?_, ?_, g3, g4⟩
        · rw [g1, ht]; rfl
        · rw [g2, hi]; rfl

theorem sumDeltas_append (ops1 ops2 : List Op) :
    sumDeltas (ops1 ++ ops2) = sumDeltas ops1 + sumDeltas ops2 := by
  induction ops1 with
  | nil => simp [sumDeltas]
  | cons op ops1 ih =>
    rw [List.cons_append]
    cases op <;> simp only [sumDeltas, ih]
    omega

theorem deltasNonneg_append (ops1 ops2 : List Op) :
    deltasNonneg (ops1 ++ ops2) = (deltasNonneg ops1 && deltasNonneg ops2) := by
  induction ops1 with
  | nil => simp [deltasNonneg]
  | cons op ops1 ih =>
    rw [List.cons_append]
    cases op <;> simp only [deltasNonneg, ih, Bool.and_assoc]

/-- C20 (idle-time bound): take a call sequence on a fresh tracker in which all
calls succeed, every `timePassed` delta is non-negative and the deltas sum to at
most the largest `int` (no overflow).  After every call of it, that is after
every initial part `pre`, the idle time is between 0 and the clock, the clock
is the sum of the deltas so far, and `getTimePassed()` is the sum of the deltas
since the most recent of construction, `use`, `resetIdleTime`,
`lockForTransfer`, `setList` and `setDisconnected`. -/
theorem idle_time_bound (u : Uninitialized) (pre post : List Op) (s : ConnStateTracker)
    (hrun : run (new u) (pre ++ post) = some s)
    (hnn : deltasNonneg (pre ++ post) = true)
    (hsum : sumDeltas (pre ++ post) ≤ INT_MAX) :
    ∃ sk : ConnStateTracker,
      run (new u) pre = some sk ∧ run sk post = some s ∧
      0 ≤ sk.idletime ∧ sk.idletime ≤ sk.time ∧ sk.time = sumDeltas pre ∧
      sk.getTimePassed = idleDeltas 0 pre := by
  rw [run_append] at hrun
  cases hpre : run (new u) pre with
  | none => simp [hpre] at hrun
  | some sk =>
    rw [hpre] at hrun
    rw [deltasNonneg_append, Bool.and_eq_true] at hnn
    rw [sumDeltas_append] at hsum
    have hpost := sumDeltas_nonneg post hnn.2
    obtain ⟨g1, g2, g3, g4⟩ := run_idle pre (new u) sk hpre hnn.1
      (by simp only [new]; omega) (le_refl _) (le_refl _)
    refine ⟨sk, rfl, hrun, g3, g4, ?_, ?_⟩
    · rw [g1]; simp [new]
    · exact g2

/-- Witness of C20: `timePassed(5)`, `use()`, `timePassed(3)`, `timePassed(4)` on
a fresh tracker, followed by `finishTransfer()`: after the four calls the clock
is at 12 and the idle time is 7. -/
theorem idle_time_bound_witness :
    run (new exampleUninit) (opsTickUseTick ++ [Op.finishTransfer]) = some stateIdle7 ∧
      ∃ sk : ConnStateTracker,
        run (new exampleUninit) opsTickUseTick = some sk ∧
        0 ≤ sk.idletime ∧ sk.idletime ≤ sk.time ∧ sk.time = 12 ∧ sk.getTimePassed = 7 := by
  obtain ⟨sk, h1, -, h3, h4, h5, h6⟩ :=
    idle_time_bound exampleUninit opsTickUseTick [Op.finishTransfer] stateIdle7
      (by decide) (by decide) (by decide)
  exact ⟨by decide, sk, h1, h3, h4, h5.trans (by decide), h6.trans (by decide)⟩

end ConnStateTracker

end CbFtp
